import Mathlib

/-!
Verification of the pilotlog import/export pipeline
(`pilotlog/management/commands/import_data.py` and `export_data.py`,
models in `pilotlog/models.py`).

Shallow embedding conventions:
* JSON scalars appearing in input records are `JVal` (the input format uses
  null, booleans, integers and strings; floats, arrays and nested objects
  are outside the scope of the claims and are not modelled).
* Python runtime values stored into model rows are `PyVal` (scalars plus
  `uuid.UUID` objects, `datetime.date` objects and `Decimal` objects).
* A Django row is stored as the evaluated `defaults` dictionary of the
  `update_or_create` call (an association list, in source order), plus the
  separately tracked `aircraft_id` foreign-key slot that only `Flight`
  declares (model default `1`, i.e. primary key 1).
* Exceptions are modelled by a `halted` step outcome; an exception inside
  the per-record loop propagates and stops the run with the store as is.
* `uuid.uuid4()` is modelled by a supply `Nat → Nat` of arbitrary fresh
  128-bit values, indexed by record position; the only importer that
  consumes a fresh value is `import_qualification` (RefAirfield default).
-/

set_option maxHeartbeats 1000000

namespace PilotLog

/-- A JSON scalar value, as found in the input document
(`import - pilotlog_mcc.json`). -/
inductive JVal where
  | null
  | jb (b : Bool)
  | ji (n : Int)
  | js (s : String)
  deriving Repr, DecidableEq

/-- A Python runtime value as persisted into a model field: JSON scalars
plus the objects produced by the importer (`uuid.UUID`, `datetime.date`,
`decimal.Decimal`).  `uuid k` is the UUID whose 128-bit integer value is
`k`; `dec m e` is the decimal `m × 10⁻ᵉ` (representation-preserving, as
`Decimal` is). -/
inductive PyVal where
  | pnone
  | pb (b : Bool)
  | pi (n : Int)
  | ps (s : String)
  | uuid (k : Nat)
  | date (y m d : Nat)
  | dec (m : Int) (e : Nat)
  deriving Repr, DecidableEq

/-- Embed a JSON scalar into the Python value universe. -/
def j2p : JVal → PyVal
  | .null => .pnone
  | .jb b => .pb b
  | .ji n => .pi n
  | .js s => .ps s

/-- A Python dict with string keys and JSON-scalar values (a record
envelope or a `meta` object). -/
abbrev JDict := List (String × JVal)

/-- A Python dict with string keys and runtime values (an evaluated
`defaults` dictionary, i.e. a stored row). -/
abbrev Dict := List (String × PyVal)

/-- First-match association-list lookup (Python dict access). -/
def jLookup : JDict → String → Option JVal
  | [], _ => none
  | (k, v) :: rest, key => if k = key then some v else jLookup rest key

/-- `d.get(key, default)` on a JSON dict. -/
def jGet (d : JDict) (key : String) (dflt : JVal) : JVal :=
  (jLookup d key).getD dflt

/-- `key in d` on a JSON dict. -/
def jHas (d : JDict) (key : String) : Bool :=
  (jLookup d key).isSome

/-- First-match association-list lookup on a stored row. -/
def pLookup : Dict → String → Option PyVal
  | [], _ => none
  | (k, v) :: rest, key => if k = key then some v else pLookup rest key

/-- Python truthiness of a JSON scalar (`bool(x)`). -/
def jTruthy : JVal → Bool
  | .null => false
  | .jb b => b
  | .ji n => n ≠ 0
  | .js s => s ≠ ""

/-- All-digit test on a string (`str.isdigit`, restricted to ASCII digits;
the input format only contains ASCII). -/
def isDigitStr (s : String) : Bool :=
  s ≠ "" && s.toList.all Char.isDigit

/-- Numeric value of an all-digit string. -/
def digitsToNat (cs : List Char) : Nat :=
  cs.foldl (fun a c => a * 10 + (c.toNat - 48)) 0

/-- `int(s)` for a decimal string: optional sign followed by at least one
digit.  (Python additionally tolerates surrounding whitespace and single
underscores between digits; no such string occurs in the claims.) -/
def intParse (s : String) : Option Int :=
  match s.toList with
  | [] => none
  | '-' :: rest => if rest ≠ [] && rest.all Char.isDigit
      then some (-(digitsToNat rest : Int)) else none
  | '+' :: rest => if rest ≠ [] && rest.all Char.isDigit
      then some ((digitsToNat rest : Int)) else none
  | cs => if cs.all Char.isDigit then some ((digitsToNat cs : Int)) else none

/-! ### Hexadecimal digits and the `uuid.UUID` constructor -/

/-- Hex-digit test (`int(s, 16)` accepts these characters). -/
def isHexChar (c : Char) : Bool :=
  (('0' ≤ c && c ≤ '9') || ('a' ≤ c && c ≤ 'f') || ('A' ≤ c && c ≤ 'F'))

/-- Value of one hex digit. -/
def hexVal (c : Char) : Nat :=
  if '0' ≤ c && c ≤ '9' then c.toNat - 48
  else if 'a' ≤ c && c ≤ 'f' then c.toNat - 87
  else c.toNat - 55

/-- Lower-case hex digit for a value `< 16` (as `%x` formatting emits). -/
def hexDigit (n : Nat) : Char :=
  if n < 10 then Char.ofNat (48 + n) else Char.ofNat (87 + n)

/-- `k` lower-case hex digits of `n`, most significant first
(i.e. `%0kx` formatting of `n mod 16^k`). -/
def toHexN : Nat → Nat → List Char
  | 0, _ => []
  | k + 1, n => toHexN k (n / 16) ++ [hexDigit (n % 16)]

/-- `int(cs, 16)` on a known-hex digit list. -/
def fromHexAux (a : Nat) : List Char → Nat
  | [] => a
  | c :: cs => fromHexAux (a * 16 + hexVal c) cs

def fromHex (cs : List Char) : Nat := fromHexAux 0 cs

def braceL : Char := Char.ofNat 123

def braceR : Char := Char.ofNat 125

/-- One brace character (for Python `str.strip` of the brace pair). -/
def isBrace (c : Char) : Bool := c = braceL || c = braceR

/-- Python `str.replace` of the literal pattern `urn:` by the empty string
(left-to-right, non-overlapping). -/
def removeUrn : List Char → List Char
  | 'u' :: 'r' :: 'n' :: ':' :: rest => removeUrn rest
  | c :: rest => c :: removeUrn rest
  | [] => []

/-- Python `str.replace` of the literal pattern `uuid:` by the empty
string. -/
def removeUuidTag : List Char → List Char
  | 'u' :: 'u' :: 'i' :: 'd' :: ':' :: rest => removeUuidTag rest
  | c :: rest => c :: removeUuidTag rest
  | [] => []

/-- Python `str.strip` with the two brace characters: drop them from both
ends. -/
def stripBraces (cs : List Char) : List Char :=
  ((cs.dropWhile isBrace).reverse.dropWhile isBrace).reverse

/-- The character-level normalisation pipeline of `uuid.UUID(hex=s)` in
CPython: `replace(urn-colon, empty)`, `replace(uuid-colon, empty)`,
`strip(braces)`, `replace(hyphen, empty)`. -/
def uuidNormalizeL (cs : List Char) : List Char :=
  ((removeUuidTag (removeUrn cs)).dropWhile isBrace).reverse.dropWhile isBrace
    |>.reverse |>.filter (fun c => c ≠ '-')

/-- String form of the normalisation, after which exactly 32 hex digits
are required. -/
def uuidNormalize (s : String) : List Char :=
  uuidNormalizeL s.toList

/-- `uuid.UUID(s)`: `some k` is a UUID object with 128-bit value `k`,
`none` is the `ValueError` raised on a badly formed string.  (Python's
`int(s, 16)` additionally tolerates underscores, sign and whitespace,
which cannot occur here after the length-32 check except in exotic inputs
outside the claims; we require plain hex digits.) -/
def pyUUIDparse (s : String) : Option Nat :=
  if (uuidNormalize s).length = 32 && (uuidNormalize s).all isHexChar
  then some (fromHex (uuidNormalize s)) else none

/-- Character list of `str(uuid.UUID(int=n))`: canonical hyphenated
lower-case form 8-4-4-4-12. -/
def uuidChars (n : Nat) : List Char :=
  ((toHexN 32 n).take 8) ++ '-' :: (((toHexN 32 n).drop 8).take 4) ++ '-' ::
    (((toHexN 32 n).drop 12).take 4) ++ '-' ::
    (((toHexN 32 n).drop 16).take 4) ++ '-' :: ((toHexN 32 n).drop 20)

/-- `str(uuid.UUID(int=n))`. -/
def uuidToStr (n : Nat) : String :=
  String.mk (uuidChars n)

/-! ### Date and decimal parsing -/

/-- Days in a month of the proleptic Gregorian calendar
(`datetime.date` validity). -/
def daysInMonth (y m : Nat) : Nat :=
  if m = 2 then (if y % 4 = 0 && (y % 100 ≠ 0 || y % 400 = 0) then 29 else 28)
  else if m = 4 || m = 6 || m = 9 || m = 11 then 30
  else 31

/-- Split a character list at hyphens (`str.split` with a dash). -/
def splitDash : List Char → List (List Char)
  | [] => [[]]
  | '-' :: rest => [] :: splitDash rest
  | c :: rest =>
    match splitDash rest with
    | g :: gs => (c :: g) :: gs
    | [] => [[c]]

/-- `datetime.strptime(s, y-m-d format).date()`: three dash-separated
digit groups (year up to 4 digits, month and day up to 2, as `strptime`
matches), forming a valid calendar date. -/
def pyDateParse (s : String) : Option (Nat × Nat × Nat) :=
  match splitDash s.toList with
  | [ys, ms, ds] =>
    if ys ≠ [] && ys.all Char.isDigit && ys.length ≤ 4 &&
       ms ≠ [] && ms.all Char.isDigit && ms.length ≤ 2 &&
       ds ≠ [] && ds.all Char.isDigit && ds.length ≤ 2 then
      let y := digitsToNat ys
      let m := digitsToNat ms
      let d := digitsToNat ds
      if 1 ≤ y && 1 ≤ m && m ≤ 12 && 1 ≤ d && d ≤ daysInMonth y m then
        some (y, m, d)
      else none
    else none
  | _ => none

/-- `Decimal(s)` for a plain decimal literal: optional sign, digits with an
optional fractional part, at least one digit overall.  The result keeps
the written scale (`Decimal` is representation-preserving).  Exponent
forms and the special values are outside the claims and rejected here
would never arise; `none` is `InvalidOperation`. -/
def decParse (s : String) : Option (Int × Nat) :=
  let core : List Char → Option (Int × Nat) := fun cs =>
    match cs.span (fun c => c ≠ '.') with
    | (ip, fpWithDot) =>
      let fp := fpWithDot.drop 1
      if (ip ++ fp) ≠ [] && ip.all Char.isDigit && fp.all Char.isDigit &&
         (fpWithDot = [] || fpWithDot.head? = some '.') then
        some ((digitsToNat ip * 10 ^ fp.length + digitsToNat fp : Nat), fp.length)
      else none
  match s.toList with
  | '-' :: rest => (core rest).map (fun p => (-p.1, p.2))
  | '+' :: rest => core rest
  | cs => core cs

/-! ### Field coercion utilities (`import_data.py`, lines 62-147)

Each returns the value the source returns together with the list of
warning diagnostics it writes.  None of them can raise: in the source
every fallible primitive call sits inside a matching `try/except`. -/

/-- `get_valid_date` (lines 62-81): parse a nonempty string as `y-m-d`;
empty string and `None` silently give `None`; a malformed string warns
and gives `None`; a non-string non-null value warns and gives `None`. -/
def get_valid_date (value : JVal) : PyVal × List String :=
  match value with
  | .js s =>
    if s ≠ "" then
      match pyDateParse s with
      | some (y, m, d) => (.date y m d, [])
      | none => (.pnone, ["Invalid date format for value: " ++ s ++ ". Skipping."])
    else (.pnone, [])
  | .null => (.pnone, [])
  | _ => (.pnone, ["Unexpected value type for date conversion. Skipping."])

/-- `get_valid_decimal` (lines 83-99): `Decimal(value)` if `value` is
truthy, falling back to `Decimal(default)` with a warning on a parse
failure; falsy values give `Decimal(default)` silently.  (`Decimal` of an
`int` or `bool` is exact and cannot fail.) -/
def get_valid_decimal (value : JVal) (dflt : Int := 0) : PyVal × List String :=
  if jTruthy value then
    match value with
    | .js s =>
      match decParse s with
      | some (m, e) => (.dec m e, [])
      | none => (.dec dflt 0,
          ["Invalid decimal value for " ++ s ++ ". Using default value."])
    | .ji n => (.dec n 0, [])
    | .jb b => (.dec (if b then 1 else 0) 0, [])
    | .null => (.dec dflt 0, [])
  else (.dec dflt 0, [])

/-- `get_valid_integer` (lines 101-116): `int(value)` if `value` is
truthy (warning and `None` on failure), `None` otherwise. -/
def get_valid_integer (value : JVal) : PyVal × List String :=
  if jTruthy value then
    match value with
    | .js s =>
      match intParse s with
      | some n => (.pi n, [])
      | none => (.pnone, ["Invalid integer value for " ++ s ++ ". Skipping."])
    | .ji n => (.pi n, [])
    | .jb b => (.pi (if b then 1 else 0), [])
    | .null => (.pnone, [])
  else (.pnone, [])

/-- `get_valid_time` (lines 118-133): `int(value)` for a truthy string
(warning and `None` on failure), `None` for anything else. -/
def get_valid_time (value : JVal) : PyVal × List String :=
  match value with
  | .js s =>
    if s ≠ "" then
      match intParse s with
      | some n => (.pi n, [])
      | none => (.pnone, ["Invalid time format for value: " ++ s ++ ". Skipping."])
    else (.pnone, [])
  | _ => (.pnone, [])

/-- `validate_guid` (lines 135-147): truthy, a string, and of length 36. -/
def validate_guid (guid : JVal) : Bool :=
  match guid with
  | .js s => jTruthy (.js s) && s.length = 36
  | _ => false

/-! ### Records, store, step outcomes -/

/-- One element of the input JSON array.  `top` is the record dict with
its scalar entries (`table`, `guid`, `user_id`, `platform`, `_modified`);
the `meta` entry, an object when present, is tracked in `rmeta`
(`rmeta = none` models a record without a `meta` key). -/
structure Record where
  top : JDict
  rmeta : Option JDict
  deriving Repr, DecidableEq

/-- Upsert key of an entity, per table.  `update_or_create` keys:
Aircraft/Flight/Query/MyQueryBuild/Pilot/Qualification/SettingConfig/
Airfield by `guid`; ImagePic by `(guid, img_code)`; LimitRules by
`(user_id, limit_code, platform)`. -/
inductive EKey where
  | aircraftK (g : Nat)
  | flightK (g : Nat)
  | imageK (g : Nat) (imgCode : Nat)
  | limitK (userId : JVal) (limitCode : Nat) (platform : JVal)
  | queryK (g : Nat)
  | qbuildK (g : Nat)
  | pilotK (g : Nat)
  | qualK (g : Nat)
  | settingK (g : Nat)
  | airfieldK (g : Nat)
  deriving Repr, DecidableEq

/-- A stored row: the evaluated `defaults` dictionary of the upsert, plus
the `aircraft_id` foreign-key slot that only the Flight model declares
(`models.ForeignKey(Aircraft, default=1)`; primary keys of the referenced
aircraft).  The importer never lists `aircraft_id` in `defaults` (the
line is commented out in the source), so on creation the slot holds the
model default 1 and on update it keeps its previous value.  For rows of
other tables the slot is inert and holds 1. -/
structure ERow where
  fields : Dict
  aref : Nat
  deriving Repr, DecidableEq

/-- The relational store: one entry per persisted entity. -/
abbrev Store := List (EKey × ERow)

def lookupS : Store → EKey → Option ERow
  | [], _ => none
  | (k, r) :: rest, key => if k = key then some r else lookupS rest key

def keysS (s : Store) : List EKey := s.map Prod.fst

/-- `update_or_create(key, defaults=d)`: overwrite the `defaults` fields
of the existing row (keeping its `aref` slot), or insert a fresh row with
the model-default `aref = 1`. -/
def upsert : Store → EKey → Dict → Store
  | [], key, d => [(key, ⟨d, 1⟩)]
  | (k, r) :: rest, key, d =>
    if k = key then (k, ⟨d, r.aref⟩) :: rest else (k, r) :: upsert rest key d

/-- A keyed write produced by one successfully imported record. -/
abbrev Effect := EKey × Dict

/-- Outcome kind of processing one record: a keyed write, a skip, or a
propagating exception (which stops the run). -/
inductive StepKind where
  | applied (e : Effect)
  | skippedK
  | haltedK (err : String)
  deriving Repr, DecidableEq

/-- Outcome of one record: the kind plus the diagnostics written, as a
function of the store at that moment (the created-vs-updated wording and
the Aircraft→Flight linking message inspect the store; nothing else
does). -/
structure StepOut where
  kind : StepKind
  logs : Store → List String

def halt (err : String) : StepOut := ⟨.haltedK err, fun _ => []⟩

/-- `str.lower()` (ASCII; the table tags in the input are ASCII). -/
def lowerStr (s : String) : String :=
  String.mk (s.data.map Char.toLower)

/-- `str(x)` of a JSON scalar, for diagnostic messages. -/
def jDisp : JVal → String
  | .null => "None"
  | .jb true => "True"
  | .jb false => "False"
  | .ji n => toString n
  | .js s => s

/-- Shorthand: `meta.get(key, default)` embedded into the value
universe. -/
def mv (meta : JDict) (key : String) (dflt : JVal) : PyVal :=
  j2p (jGet meta key dflt)

/-! ### Per-table importers (`import_data.py`, lines 149-574)

Each importer takes one record and returns the step outcome.  The
evaluated `defaults` dictionaries are separate definitions so the claim
theorems can name them. -/

/-- The `defaults` dict of the Aircraft upsert (lines 164-189). -/
def aircraft_defaults (meta : JDict) (uid plat md : JVal) : Dict :=
  [("user_id", j2p uid), ("platform", j2p plat), ("_modified", j2p md),
   ("make", mv meta "Make" (.js "")), ("model", mv meta "Model" (.js "")),
   ("category", mv meta "Category" (.ji 0)),
   ("aircraft_class", mv meta "Class" (.ji 0)),
   ("power", mv meta "Power" (.ji 0)), ("seats", mv meta "Seats" (.ji 0)),
   ("active", mv meta "Active" (.jb false)),
   ("reference", mv meta "Reference" (.js "")),
   ("tailwheel", mv meta "Tailwheel" (.jb false)),
   ("complex", mv meta "Complex" (.jb false)),
   ("high_perf", mv meta "HighPerf" (.jb false)),
   ("aerobatic", mv meta "Aerobatic" (.jb false)),
   ("fnpt", mv meta "FNPT" (.ji 0)), ("kg5700", mv meta "Kg5700" (.jb false)),
   ("rating", mv meta "Rating" (.js "")), ("company", mv meta "Company" (.js "")),
   ("cond_log", mv meta "CondLog" (.ji 0)),
   ("fav_list", mv meta "FavList" (.jb false)),
   ("sub_model", mv meta "SubModel" (.js "")),
   ("record_modified", mv meta "Record_Modified" (.ji 0)),
   ("engyype", mv meta "EngType" (.ji 0))]

/-- `import_aircraft` (lines 149-209).  No guid validation: `record[guid]`
is handed straight to `uuid.UUID`, so a missing or malformed guid raises
(halting the batch).  After the upsert the source fetches a Flight with
the same guid and executes `flight_instance.aircraft = aircraft;
flight_instance.save()`.  The Flight model declares no field named
`aircraft` (the foreign key is `aircraft_id`), so the assignment creates
an undeclared instance attribute that `save()` does not persist: the
stored Flight row is unchanged, and only the log line differs. -/
def import_aircraft (r : Record) : StepOut :=
  match r.rmeta with
  | none => halt "KeyError: meta"
  | some meta =>
    match jLookup r.top "guid" with
    | none => halt "KeyError: guid"
    | some (.js gs) =>
      match pyUUIDparse gs with
      | none => halt "ValueError: badly formed hexadecimal UUID string"
      | some g =>
        match jLookup r.top "user_id", jLookup r.top "platform",
              jLookup r.top "_modified" with
        | some uid, some plat, some md =>
          ⟨.applied (.aircraftK g, aircraft_defaults meta uid plat md),
           fun st =>
             let cmsg := if (lookupS st (.aircraftK g)).isSome
               then "Updated Aircraft" else "Created new Aircraft"
             cmsg :: (match lookupS st (.flightK g) with
               | some _ => "Assigned Aircraft to Flight: " ++ gs
               | none => "No Flight found with guid: " ++
                   jDisp (jGet r.top "FlightGuid" (.js ""))) :: [cmsg]⟩
        | _, _, _ => halt "KeyError: envelope field"
    | some _ => halt "AttributeError: uuid.UUID on a non-string"

/-- The `defaults` dict of the Flight upsert (lines 231-277). -/
def flight_defaults (r : Record) (meta : JDict) : Dict :=
  [("user_id", mv r.top "user_id" (.ji 0)),
   ("platform", mv r.top "platform" (.ji 0)),
   ("_modified", mv r.top "_modified" (.ji 0)),
   ("from_airport", mv meta "ArrCode" (.js "")),
   ("to_airport", mv meta "DepCode" (.js "")),
   ("route", mv meta "Route" (.js "")),
   ("date", (get_valid_date (jGet meta "DateUTC" (.js ""))).1),
   ("time_out", (get_valid_time (jGet meta "ArrTimeUTC" (.js ""))).1),
   ("time_off", (get_valid_time (jGet meta "DepTimeUTC" (.js ""))).1),
   ("time_on", (get_valid_time (jGet meta "LdgTimeUTC" (.js ""))).1),
   ("time_in", (get_valid_time (jGet meta "ArrTimeUTC" (.js ""))).1),
   ("on_duty", (get_valid_time (jGet meta "ArrOffset" (.js ""))).1),
   ("off_duty", (get_valid_time (jGet meta "DepOffset" (.js ""))).1),
   ("total_time", (get_valid_decimal (jGet meta "minTOTAL" (.ji 0))).1),
   ("pic", (get_valid_decimal (jGet meta "minPIC" (.ji 0))).1),
   ("sic", (get_valid_decimal (jGet meta "minCOP" (.ji 0))).1),
   ("night", (get_valid_decimal (jGet meta "minNIGHT" (.ji 0))).1),
   ("solo", (get_valid_decimal (jGet meta "minSFR" (.ji 0))).1),
   ("cross_country", (get_valid_decimal (jGet meta "minXC" (.ji 0))).1),
   ("nvg", (get_valid_decimal (jGet meta "minNIGHT" (.ji 0))).1),
   ("nvg_ops", (get_valid_decimal (jGet meta "minAIR" (.ji 0))).1),
   ("distance", (get_valid_decimal (jGet meta "FuelUsed" (.ji 0))).1),
   ("day_takeoffs", (get_valid_integer (jGet meta "ToDay" (.ji 0))).1),
   ("day_landings_full_stop", (get_valid_integer (jGet meta "LdgDay" (.ji 0))).1),
   ("night_takeoffs", (get_valid_integer (jGet meta "ToNight" (.ji 0))).1),
   ("night_landings_full_stop", (get_valid_integer (jGet meta "LdgNight" (.ji 0))).1),
   ("all_landings", (get_valid_integer (jGet meta "Holding" (.ji 0))).1),
   ("actual_instrument", (get_valid_decimal (jGet meta "minINSTR" (.ji 0))).1),
   ("simulated_instrument", (get_valid_decimal (jGet meta "minIFR" (.ji 0))).1),
   ("hobbs_start", (get_valid_decimal (jGet meta "HobbsIn" (.ji 0))).1),
   ("hobbs_end", (get_valid_decimal (jGet meta "HobbsOut" (.ji 0))).1),
   ("tach_start", (get_valid_decimal (jGet meta "ArrTimeSCHED" (.ji 0))).1),
   ("tach_end", (get_valid_decimal (jGet meta "DepTimeSCHED" (.ji 0))).1),
   ("holds", (get_valid_integer (jGet meta "Holding" (.ji 0))).1),
   ("approach", mv meta "TagApproach" (.js "")),
   ("dual_given", (get_valid_decimal (jGet meta "minDUAL" (.ji 0))).1),
   ("simulated_flight", (get_valid_decimal (jGet meta "minEXAM" (.ji 0))).1),
   ("ground_training", (get_valid_decimal (jGet meta "Training" (.ji 0))).1),
   ("instructor_comments", mv meta "Remarks" (.js "")),
   ("pilot_comments", mv meta "Remarks" (.js "")),
   ("flight_review", mv meta "ToEdit" (.jb false)),
   ("checkride", mv meta "NextPage" (.jb false)),
   ("ipc", mv meta "UserBool" (.jb false)),
   ("nvg_proficiency", mv meta "PF" (.jb false))]

/-- `import_flights` (lines 211-283): gate on `validate_guid`, skipping
(with a diagnostic) on failure; then upsert keyed by the parsed guid. -/
def import_flights (r : Record) : StepOut :=
  match jGet r.top "guid" .null with
  | .js gs =>
    if validate_guid (.js gs) then
      match r.rmeta with
      | none => halt "KeyError: meta"
      | some meta =>
        match pyUUIDparse gs with
        | none => halt "ValueError: badly formed hexadecimal UUID string"
        | some g =>
          ⟨.applied (.flightK g, flight_defaults r meta),
           fun st => [if (lookupS st (.flightK g)).isSome
             then "Updated Flight: " ++ gs else "Created new Flight: " ++ gs]⟩
    else ⟨.skippedK, fun _ => ["Invalid or missing GUID: " ++ gs]⟩
  | gv => ⟨.skippedK, fun _ => ["Invalid or missing GUID: " ++ jDisp gv]⟩

/-- The `defaults` dict of the ImagePic upsert (lines 297-307). -/
def imagepic_defaults (meta : JDict) (uid plat md : JVal) : Dict :=
  [("user_id", j2p uid), ("platform", j2p plat), ("_modified", j2p md),
   ("file_ext", mv meta "FileExt" (.js "")),
   ("file_name", mv meta "FileName" (.js "")),
   ("link_code", mv meta "LinkCode" (.js "")),
   ("img_upload", mv meta "Img_Upload" (.js "")),
   ("img_download", mv meta "Img_Download" (.js "")),
   ("record_modified", mv meta "Record_Modified" (.ji 0))]

/-- `import_imagepic` (lines 285-312): guid gate, then an upsert keyed by
`(guid, img_code)` where `img_code` is `meta[ImgCode]` — a direct
subscript with no default, so a record whose meta omits `ImgCode` raises
`KeyError`.  The envelope fields are also direct subscripts. -/
def import_imagepic (r : Record) : StepOut :=
  match jGet r.top "guid" .null with
  | .js gs =>
    if validate_guid (.js gs) then
      match r.rmeta with
      | none => halt "KeyError: meta"
      | some meta =>
        match pyUUIDparse gs with
        | none => halt "ValueError: badly formed hexadecimal UUID string"
        | some g =>
          match jLookup meta "ImgCode" with
          | none => halt "KeyError: ImgCode"
          | some (.js ics) =>
            match pyUUIDparse ics with
            | none => halt "ValidationError: img_code is not a valid UUID"
            | some icN =>
              match jLookup r.top "user_id", jLookup r.top "platform",
                    jLookup r.top "_modified" with
              | some uid, some plat, some md =>
                ⟨.applied (.imageK g icN, imagepic_defaults meta uid plat md),
                 fun st => [if (lookupS st (.imageK g icN)).isSome
                   then "Updated ImagePic: " ++ ics
                   else "Created new ImagePic: " ++ ics]⟩
              | _, _, _ => halt "KeyError: envelope field"
          | some _ => halt "ValidationError: img_code is not a valid UUID"
    else ⟨.skippedK, fun _ => ["Invalid or missing GUID: " ++ gs]⟩
  | gv => ⟨.skippedK, fun _ => ["Invalid or missing GUID: " ++ jDisp gv]⟩

/-- The `defaults` dict of the LimitRules upsert (lines 328-338).
(`g` is the 128-bit value of the record guid, stored as a UUID object.) -/
def limitrules_defaults (r : Record) (meta : JDict) (g : Nat) : Dict :=
  [("guid", .uuid g),
   ("_modified", mv r.top "_modified" (.ji 0)),
   ("l_from", (get_valid_date (jGet meta "LFrom" (.js ""))).1),
   ("l_to", (get_valid_date (jGet meta "LTo" (.js ""))).1),
   ("l_type", mv meta "LType" (.ji 0)), ("l_zone", mv meta "LZone" (.ji 0)),
   ("l_minutes", mv meta "LMinutes" (.ji 0)),
   ("l_period_code", mv meta "LPeriodCode" (.ji 0)),
   ("record_modified", mv meta "Record_Modified" (.ji 0))]

/-- `import_limitrules` (lines 314-343): guid gate, then an upsert keyed
by `(user_id, uuid.UUID(meta.get(LimitCode, empty)), platform)`.  The
empty-string default means a meta without `LimitCode` raises
`ValueError` inside `uuid.UUID`. -/
def import_limitrules (r : Record) : StepOut :=
  match jGet r.top "guid" .null with
  | .js gs =>
    if validate_guid (.js gs) then
      match r.rmeta with
      | none => halt "KeyError: meta"
      | some meta =>
        match jGet meta "LimitCode" (.js "") with
        | .js lcs =>
          match pyUUIDparse lcs with
          | none => halt "ValueError: badly formed hexadecimal UUID string"
          | some lcN =>
            match pyUUIDparse gs with
            | none => halt "ValueError: badly formed hexadecimal UUID string"
            | some g =>
              let key := EKey.limitK (jGet r.top "user_id" (.ji 0)) lcN
                (jGet r.top "platform" (.ji 0))
              ⟨.applied (key, limitrules_defaults r meta g),
               fun st => [if (lookupS st key).isSome
                 then "Updated LimitRules: " ++ lcs
                 else "Created new LimitRules: " ++ lcs]⟩
        | _ => halt "AttributeError: uuid.UUID on a non-string"
    else ⟨.skippedK, fun _ => ["Invalid or missing GUID: " ++ gs]⟩
  | gv => ⟨.skippedK, fun _ => ["Invalid or missing GUID: " ++ jDisp gv]⟩

/-- The `defaults` dict of the Query upsert (lines 357-366). -/
def myquery_defaults (r : Record) (meta : JDict) : Dict :=
  [("name", mv meta "Name" (.js "")), ("mQCode", mv meta "mQCode" (.js "")),
   ("quick_view", mv meta "QuickView" (.jb false)),
   ("short_name", mv meta "ShortName" (.js "")),
   ("record_modified", mv meta "Record_Modified" (.ji 0)),
   ("user_id", mv r.top "user_id" (.ji 0)),
   ("platform", mv r.top "platform" (.ji 0)),
   ("_modified", mv r.top "_modified" (.ji 0))]

/-- `import_myquery` (lines 345-372). -/
def import_myquery (r : Record) : StepOut :=
  match jGet r.top "guid" .null with
  | .js gs =>
    if validate_guid (.js gs) then
      match r.rmeta with
      | none => halt "KeyError: meta"
      | some meta =>
        match pyUUIDparse gs with
        | none => halt "ValueError: badly formed hexadecimal UUID string"
        | some g =>
          ⟨.applied (.queryK g, myquery_defaults r meta),
           fun st => [if (lookupS st (.queryK g)).isSome
             then "Updated Query" else "Created new Query"]⟩
    else ⟨.skippedK, fun _ => ["Invalid or missing GUID: " ++ gs]⟩
  | gv => ⟨.skippedK, fun _ => ["Invalid or missing GUID: " ++ jDisp gv]⟩

/-- The `defaults` dict of the MyQueryBuild upsert (lines 387-398). -/
def myquerybuild_defaults (r : Record) (meta : JDict) : Dict :=
  [("user_id", mv r.top "user_id" (.ji 0)),
   ("platform", mv r.top "platform" (.ji 0)),
   ("_modified", mv r.top "_modified" (.ji 0)),
   ("build1", mv meta "Build1" (.js "")), ("build2", mv meta "Build2" (.ji 0)),
   ("build3", mv meta "Build3" (.ji 0)), ("build4", mv meta "Build4" (.js "")),
   ("mQCode", mv meta "mQCode" (.js "")), ("mQBCode", mv meta "mQBCode" (.js "")),
   ("record_modified", mv meta "Record_Modified" (.ji 0))]

/-- `import_myquerybuild` (lines 375-404). -/
def import_myquerybuild (r : Record) : StepOut :=
  match jGet r.top "guid" .null with
  | .js gs =>
    if validate_guid (.js gs) then
      match r.rmeta with
      | none => halt "KeyError: meta"
      | some meta =>
        match pyUUIDparse gs with
        | none => halt "ValueError: badly formed hexadecimal UUID string"
        | some g =>
          ⟨.applied (.qbuildK g, myquerybuild_defaults r meta),
           fun st => [if (lookupS st (.qbuildK g)).isSome
             then "Updated MyQueryBuild: " ++ gs
             else "Created new MyQueryBuild: " ++ gs]⟩
    else ⟨.skippedK, fun _ => ["Invalid or missing GUID: " ++ gs]⟩
  | gv => ⟨.skippedK, fun _ => ["Invalid or missing GUID: " ++ jDisp gv]⟩

/-- The `defaults` dict of the Pilot upsert (lines 418-439). -/
def pilot_defaults (r : Record) (meta : JDict) : Dict :=
  [("user_id", mv r.top "user_id" (.ji 0)),
   ("platform", mv r.top "platform" (.ji 0)),
   ("_modified", mv r.top "_modified" (.ji 0)),
   ("notes", mv meta "Notes" (.js "")),
   ("active", mv meta "Active" (.jb false)),
   ("company", mv meta "Company" (.js "")),
   ("fav_list", mv meta "FavList" (.jb false)),
   ("user_api", mv meta "UserAPI" (.js "")),
   ("facebook", mv meta "Facebook" (.js "")),
   ("linkedin", mv meta "LinkedIn" (.js "")),
   ("pilot_ref", mv meta "PilotRef" (.js "")),
   ("pilot_code", mv meta "PilotCode" (.js "")),
   ("pilot_name", mv meta "PilotName" (.js "")),
   ("pilot_email", mv meta "PilotEMail" (.js "")),
   ("pilot_phone", mv meta "PilotPhone" (.js "")),
   ("certificate", mv meta "Certificate" (.js "")),
   ("phone_search", mv meta "PhoneSearch" (.js "")),
   ("pilot_search", mv meta "PilotSearch" (.js "")),
   ("roster_alias", mv meta "RosterAlias" (.js "")),
   ("record_modified", mv meta "Record_Modified" (.ji 0))]

/-- `import_pilot` (lines 406-450). -/
def import_pilot (r : Record) : StepOut :=
  match jGet r.top "guid" .null with
  | .js gs =>
    if validate_guid (.js gs) then
      match r.rmeta with
      | none => halt "KeyError: meta"
      | some meta =>
        match pyUUIDparse gs with
        | none => halt "ValueError: badly formed hexadecimal UUID string"
        | some g =>
          ⟨.applied (.pilotK g, pilot_defaults r meta),
           fun st => [if (lookupS st (.pilotK g)).isSome
             then "Updated Pilot" else "Created new Pilot"]⟩
    else ⟨.skippedK, fun _ => ["Invalid or missing GUID: " ++ gs]⟩
  | gv => ⟨.skippedK, fun _ => ["Invalid or missing GUID: " ++ jDisp gv]⟩

/-- The `defaults` dict of the Qualification upsert (lines 465-482).
`qn` is the parsed `QCode`; `fresh` is the value `uuid.uuid4()` returned
in this call, used only when the meta omits `RefAirfield`. -/
def qualification_defaults (r : Record) (meta : JDict) (qn fresh : Nat) : Dict :=
  [("user_id", mv r.top "user_id" (.ji 0)),
   ("platform", mv r.top "platform" (.ji 0)),
   ("_modified", mv r.top "_modified" (.ji 0)),
   ("q_code", .uuid qn),
   ("ref_extra", mv meta "RefExtra" (.ji 0)),
   ("ref_model", mv meta "RefModel" (.js "")),
   ("validity", mv meta "Validity" (.ji 0)),
   ("date_valid", (get_valid_date (jGet meta "DateValid" (.js ""))).1),
   ("q_type_code", mv meta "QTypeCode" (.ji 0)),
   ("date_issued", (get_valid_date (jGet meta "DateIssued" (.js ""))).1),
   ("minimum_qty", mv meta "MinimumQty" (.ji 0)),
   ("notify_days", mv meta "NotifyDays" (.ji 0)),
   ("ref_airfield", match jLookup meta "RefAirfield" with
     | some v => j2p v
     | none => .uuid fresh),
   ("minimum_period", mv meta "MinimumPeriod" (.ji 0)),
   ("notify_comment", mv meta "NotifyComment" (.js "")),
   ("record_modified", mv meta "Record_Modified" (.ji 0))]

/-- `import_qualification` (lines 453-488): guid gate; `q_code` comes from
`uuid.UUID(meta.get(QCode))` whose default is Python `None`, so a meta
without `QCode` raises `TypeError`; `ref_airfield` defaults to the fresh
`uuid.uuid4()` value when the meta omits `RefAirfield`. -/
def import_qualification (r : Record) (fresh : Nat) : StepOut :=
  match jGet r.top "guid" .null with
  | .js gs =>
    if validate_guid (.js gs) then
      match r.rmeta with
      | none => halt "KeyError: meta"
      | some meta =>
        match pyUUIDparse gs with
        | none => halt "ValueError: badly formed hexadecimal UUID string"
        | some g =>
          match jLookup meta "QCode" with
          | none => halt "TypeError: uuid.UUID(None)"
          | some (.js qs) =>
            match pyUUIDparse qs with
            | none => halt "ValueError: badly formed hexadecimal UUID string"
            | some qn =>
              ⟨.applied (.qualK g, qualification_defaults r meta qn fresh),
               fun st => [if (lookupS st (.qualK g)).isSome
                 then "Updated Qualification: " ++ gs
                 else "Created new Qualification: " ++ gs]⟩
          | some _ => halt "AttributeError: uuid.UUID on a non-string"
    else ⟨.skippedK, fun _ => ["Invalid or missing GUID: " ++ gs]⟩
  | gv => ⟨.skippedK, fun _ => ["Invalid or missing GUID: " ++ jDisp gv]⟩

/-- The `defaults` dict of the SettingConfig upsert (lines 515-524). -/
def settingconfig_defaults (r : Record) (meta : JDict) : Dict :=
  [("user_id", mv r.top "user_id" (.ji 0)),
   ("platform", mv r.top "platform" (.ji 0)),
   ("config_code", mv meta "ConfigCode" (.ji 0)),
   ("_modified", mv r.top "_modified" (.ji 0)),
   ("name", mv meta "Name" (.js "")), ("group", mv meta "Group" (.js "")),
   ("data", mv meta "Data" (.js "")),
   ("record_modified", mv meta "Record_Modified" (.ji 0))]

/-- `import_settingconfig` (lines 491-530): a non-string guid raises; a
guid failing `validate_guid` is tolerated when purely numeric, by
deriving `uuid.UUID(int=0 + int(guid))` and continuing with its string
form (`uuid.UUID(int=n)` itself raises when `n ≥ 2^128`); any other
invalid guid raises `ValueError`.  The subsequent upsert parses the
(possibly derived) string again, which can itself raise: a 36-character
purely numeric guid passes `validate_guid`, skips the derivation, and
then fails this parse. -/
def import_settingconfig (r : Record) : StepOut :=
  match jGet r.top "guid" .null with
  | .js gs0 =>
    let derived : Bool := ¬ validate_guid (.js gs0) && isDigitStr gs0 &&
      digitsToNat gs0.toList < 2 ^ 128
    let preLogs : List String :=
      if validate_guid (.js gs0) then []
      else ["Invalid or missing GUID: " ++ gs0] ++
        (if derived then ["Created guid is : " ++ uuidToStr (digitsToNat gs0.toList)] else [])
    if validate_guid (.js gs0) || derived then
      let gs := if derived then uuidToStr (digitsToNat gs0.toList) else gs0
      match r.rmeta with
      | none => ⟨.haltedK "KeyError: meta", fun _ => preLogs⟩
      | some meta =>
        match pyUUIDparse gs with
        | none => ⟨.haltedK "ValueError: badly formed hexadecimal UUID string",
            fun _ => preLogs⟩
        | some g =>
          ⟨.applied (.settingK g, settingconfig_defaults r meta),
           fun st => preLogs ++ [if (lookupS st (.settingK g)).isSome
             then "Updated SettingConfig: " ++ gs
             else "Created new SettingConfig: " ++ gs]⟩
    else if isDigitStr gs0 then
      ⟨.haltedK "ValueError: int is out of range",
       fun _ => ["Invalid or missing GUID: " ++ gs0]⟩
    else
      ⟨.haltedK "ValueError: Invalid GUID format",
       fun _ => ["Invalid or missing GUID: " ++ gs0]⟩
  | _ => halt "ValueError: GUID must be a string"

/-- The `defaults` dict of the Airfield upsert (lines 547-568). -/
def airfield_defaults (r : Record) (meta : JDict) : Dict :=
  [("user_id", mv r.top "user_id" (.ji 0)),
   ("platform", mv r.top "platform" (.ji 0)),
   ("_modified", mv r.top "_modified" (.ji 0)),
   ("af_code", mv meta "AFCode" (.js "")), ("af_iata", mv meta "AFIATA" (.js "")),
   ("af_icao", mv meta "AFICAO" (.js "")), ("af_name", mv meta "AFName" (.js "")),
   ("city", mv meta "City" (.js "")), ("af_cat", mv meta "AFCat" (.ji 0)),
   ("tz_code", mv meta "TZCode" (.ji 0)),
   ("latitude", mv meta "Latitude" (.ji 0)),
   ("longitude", mv meta "Longitude" (.ji 0)),
   ("show_list", mv meta "ShowList" (.jb false)),
   ("user_edit", mv meta "UserEdit" (.jb false)),
   ("af_country", mv meta "AFCountry" (.ji 0)),
   ("notes", mv meta "Notes" (.js "")),
   ("notes_user", mv meta "NotesUser" (.js "")),
   ("region_user", mv meta "RegionUser" (.ji 0)),
   ("elevation_ft", mv meta "ElevationFT" (.ji 0)),
   ("record_modified", mv meta "Record_Modified" (.ji 0))]

/-- `import_airfield` (lines 533-574): guid gate (the `try/except
TypeError` around it can never fire), then an upsert keyed by the parsed
guid. -/
def import_airfield (r : Record) : StepOut :=
  match jGet r.top "guid" .null with
  | .js gs =>
    if validate_guid (.js gs) then
      match r.rmeta with
      | none => halt "KeyError: meta"
      | some meta =>
        match pyUUIDparse gs with
        | none => halt "ValueError: badly formed hexadecimal UUID string"
        | some g =>
          ⟨.applied (.airfieldK g, airfield_defaults r meta),
           fun st => [if (lookupS st (.airfieldK g)).isSome
             then "Updated Airfield: " ++ gs else "Created new Airfield: " ++ gs]⟩
    else ⟨.skippedK, fun _ => ["Invalid or missing GUID: " ++ gs]⟩
  | gv => ⟨.skippedK, fun _ => ["Invalid or missing GUID: " ++ jDisp gv]⟩

/-! ### Table classifier and dispatcher (`import_data.py`, lines 20-60) -/

/-- `Table_Mapping` (lines 20-31): which lower-cased table names have an
importer. -/
def Table_Mapping (t : String) : Bool :=
  t = "aircraft" || t = "flight" || t = "imagepic" || t = "limitrules" ||
  t = "myquery" || t = "myquerybuild" || t = "pilot" ||
  t = "qualification" || t = "settingconfig" || t = "airfield"

/-- Invoke the importer registered for lower-cased table name `tn`.
`fresh` is the `uuid.uuid4()` supply value for this call (consumed only
by the Qualification importer). -/
def call_importer (tn : String) (r : Record) (fresh : Nat) : Option StepOut :=
  if tn = "aircraft" then some (import_aircraft r)
  else if tn = "flight" then some (import_flights r)
  else if tn = "imagepic" then some (import_imagepic r)
  else if tn = "limitrules" then some (import_limitrules r)
  else if tn = "myquery" then some (import_myquery r)
  else if tn = "myquerybuild" then some (import_myquerybuild r)
  else if tn = "pilot" then some (import_pilot r)
  else if tn = "qualification" then some (import_qualification r fresh)
  else if tn = "settingconfig" then some (import_settingconfig r)
  else if tn = "airfield" then some (import_airfield r)
  else none

/-- One iteration of the `handle` loop (lines 50-60): read and lower-case
`record[table]` (a missing key or non-string value raises), dispatch to
the importer or warn on an unknown table, and on a non-raising import
write the success line, which itself subscripts `record[guid]` and can
raise.  (That last raise can only happen on a skipped import: every
importer outcome that performed an upsert required a guid entry.) -/
def dispatch (r : Record) (fresh : Nat) : StepOut :=
  match jLookup r.top "table" with
  | none => halt "KeyError: table"
  | some (.js t) =>
    let tn := lowerStr t
    match call_importer tn r fresh with
    | some o =>
      match o.kind with
      | .haltedK e => ⟨.haltedK e, o.logs⟩
      | k =>
        match jLookup r.top "guid" with
        | none => ⟨.haltedK "KeyError: guid", o.logs⟩
        | some gv => ⟨k, fun st => o.logs st ++
            ["Successfully imported " ++ tn ++ " record: " ++ jDisp gv]⟩
    | none => ⟨.skippedK, fun _ => ["No import method for table: " ++ tn]⟩
  | some _ => halt "AttributeError: str.lower on a non-string"

/-! ### The run -/

/-- The store after the `handle` loop (lines 50-60) over `doc`, starting
from `s`.  `u` is the `uuid.uuid4()` supply, indexed by record position;
a raising record stops the run with the store as it stands. -/
def runStore : List Record → (Nat → Nat) → Nat → Store → Store
  | [], _, _, s => s
  | r :: rest, u, i, s =>
    match (dispatch r (u i)).kind with
    | .applied e => runStore rest u (i + 1) (upsert s e.1 e.2)
    | .skippedK => runStore rest u (i + 1) s
    | .haltedK _ => s

/-- The keyed writes a run performs, in order (cut short at a raising
record). -/
def effList : List Record → (Nat → Nat) → Nat → List Effect
  | [], _, _ => []
  | r :: rest, u, i =>
    match (dispatch r (u i)).kind with
    | .applied e => e :: effList rest u (i + 1)
    | .skippedK => effList rest u (i + 1)
    | .haltedK _ => []

/-! ### Export formatter (`export_data.py`) -/

/-- Python truthiness of a stored value. -/
def pyTruthy : PyVal → Bool
  | .pnone => false
  | .pb b => b
  | .pi n => n ≠ 0
  | .ps s => s ≠ ""
  | .uuid _ => true
  | .date _ _ _ => true
  | .dec m _ => m ≠ 0

/-- Left-pad a digit string with zeros to length `n`. -/
def padZeros (n : Nat) (s : String) : String :=
  String.mk (List.replicate (n - s.length) '0') ++ s

/-- `str(Decimal)` for plain (non-exponent) decimals. -/
def decStr (m : Int) (e : Nat) : String :=
  let sign := if m < 0 then "-" else ""
  let digits := padZeros (e + 1) (toString m.natAbs)
  if e = 0 then sign ++ digits
  else sign ++ (digits.take (digits.length - e)) ++ "." ++
    (digits.drop (digits.length - e))

/-- The text the `csv` module writes for one cell (`str(value)`, with
`None` written as the empty cell). -/
def pyStr : PyVal → String
  | .pnone => ""
  | .pb true => "True"
  | .pb false => "False"
  | .pi n => toString n
  | .ps s => s
  | .uuid k => uuidToStr k
  | .date y m d => padZeros 4 (toString y) ++ "-" ++ padZeros 2 (toString m) ++
      "-" ++ padZeros 2 (toString d)
  | .dec m e => decStr m e

/-- Model attribute access on a stored row (rows written by the importer
contain every field their `defaults` dict lists; a field absent from the
dict reads as its model default, which renders as the empty cell). -/
def modelAttr (row : ERow) (name : String) : PyVal :=
  (pLookup row.fields name).getD .pnone

/-- Aircraft CSV header (`export_data.py`, lines 37-40). -/
def aircraftHeaders : List String :=
  ["AircraftID", "EquipmentType", "TypeCode", "Year", "Make", "Model",
   "Category", "Class", "GearType", "EngineType", "Complex",
   "HighPerformance", "Pressurized", "TAA"]

/-- One aircraft data row (lines 47-64): a `DictWriter` emits the dict
values in header order, so the cells are aligned with
`aircraftHeaders`. -/
def aircraftCsvRow (g : Nat) (row : ERow) : List String :=
  [uuidToStr g, "", "", pyStr (modelAttr row "record_modified"),
   pyStr (modelAttr row "make"), pyStr (modelAttr row "model"),
   pyStr (modelAttr row "category"), pyStr (modelAttr row "aircraft_class"),
   "", "",
   (if pyTruthy (modelAttr row "complex") then "Yes" else "No"),
   (if pyTruthy (modelAttr row "high_perf") then "Yes" else "No"),
   "",
   (if pyTruthy (modelAttr row "aerobatic") then "Yes" else "No")]

/-- `export_aircraft_to_csv` (lines 33-72): header row then one row per
Aircraft, in store order. -/
def export_aircraft_to_csv (s : Store) : List (List String) :=
  aircraftHeaders :: s.filterMap (fun kr =>
    match kr.1 with
    | .aircraftK g => some (aircraftCsvRow g kr.2)
    | _ => none)

/-- Flight CSV header (lines 78-91): 63 column names, `PilotComments`
last. -/
def flightHeaders : List String :=
  ["Date", "AircraftID", "From", "To", "Route", "TimeOut", "TimeOff",
   "TimeOn", "TimeIn", "OnDuty", "OffDuty", "TotalTime", "PIC", "SIC",
   "Night", "Solo", "CrossCountry", "NVG", "NVGOps", "Distance",
   "DayTakeoffs", "DayLandingsFullStop", "NightTakeoffs",
   "NightLandingsFullStop", "AllLandings", "ActualInstrument",
   "SimulatedInstrument", "HobbsStart", "HobbsEnd", "TachStart", "TachEnd",
   "Holds", "Approach1", "Approach2", "Approach3", "Approach4", "Approach5",
   "Approach6", "DualGiven", "DualReceived", "SimulatedFlight",
   "GroundTraining", "InstructorName", "InstructorComments", "Person1",
   "Person2", "Person3", "Person4", "Person5", "Person6", "FlightReview",
   "Checkride", "IPC", "NVGProficiency", "FAA6158",
   "[Text]CustomFieldName", "[Numeric]CustomFieldName",
   "[Hours]CustomFieldName", "[Counter]CustomFieldName",
   "[Date]CustomFieldName", "[DateTime]CustomFieldName",
   "[Toggle]CustomFieldName", "PilotComments"]

/-- One flight data row (lines 103-115), exactly the 39 cells the source
lists, in source order.  `flight.aircraft_id.id if flight.aircraft_id
else None` renders the primary key held in the foreign-key slot (always
set, so the `None` branch is unreachable). -/
def flightCsvRow (row : ERow) : List String :=
  [pyStr (modelAttr row "date"), toString row.aref,
   pyStr (modelAttr row "from_airport"), pyStr (modelAttr row "to_airport"),
   pyStr (modelAttr row "route"), pyStr (modelAttr row "time_out"),
   pyStr (modelAttr row "time_off"), pyStr (modelAttr row "time_on"),
   pyStr (modelAttr row "time_in"), pyStr (modelAttr row "on_duty"),
   pyStr (modelAttr row "off_duty"), pyStr (modelAttr row "total_time"),
   pyStr (modelAttr row "pic"), pyStr (modelAttr row "sic"),
   pyStr (modelAttr row "night"), pyStr (modelAttr row "solo"),
   pyStr (modelAttr row "cross_country"), pyStr (modelAttr row "nvg"),
   pyStr (modelAttr row "nvg_ops"), pyStr (modelAttr row "distance"),
   pyStr (modelAttr row "day_takeoffs"),
   pyStr (modelAttr row "day_landings_full_stop"),
   pyStr (modelAttr row "night_takeoffs"),
   pyStr (modelAttr row "night_landings_full_stop"),
   pyStr (modelAttr row "all_landings"),
   pyStr (modelAttr row "actual_instrument"),
   pyStr (modelAttr row "simulated_instrument"),
   pyStr (modelAttr row "hobbs_start"), pyStr (modelAttr row "hobbs_end"),
   pyStr (modelAttr row "tach_start"), pyStr (modelAttr row "tach_end"),
   pyStr (modelAttr row "holds"), pyStr (modelAttr row "approach"),
   pyStr (modelAttr row "instructor_name"),
   pyStr (modelAttr row "instructor_comments"),
   pyStr (modelAttr row "pilot_comments"),
   pyStr (modelAttr row "flight_review"), pyStr (modelAttr row "checkride"),
   pyStr (modelAttr row "ipc")]

/-- `export_flights_to_csv` (lines 74-118): header row then one row per
Flight, in store order. -/
def export_flights_to_csv (s : Store) : List (List String) :=
  flightHeaders :: s.filterMap (fun kr =>
    match kr.1 with
    | .flightK _ => some (flightCsvRow kr.2)
    | _ => none)

/-! ### Store algebra: a run is a fold of keyed writes, and such folds are
idempotent -/

def applyE (s : Store) (e : Effect) : Store := upsert s e.1 e.2

def applyEs (s : Store) (es : List Effect) : Store := es.foldl applyE s

/-- The foreign-key slot an upsert leaves at a key: the previous row's
slot, or the model default 1 on creation. -/
def aref0 : Option ERow → Nat
  | none => 1
  | some r => r.aref

/-- The last `defaults` dict a list of effects writes at a key. -/
def lastD : List Effect → EKey → Option Dict
  | [], _ => none
  | e :: rest, k =>
    match lastD rest k with
    | some d => some d
    | none => if e.1 = k then some e.2 else none

theorem applyEs_nil (s : Store) : applyEs s [] = s := rfl

theorem applyEs_cons (s : Store) (e : Effect) (es : List Effect) :
    applyEs s (e :: es) = applyEs (applyE s e) es := rfl

theorem lookupS_upsert (s : Store) (k : EKey) (d : Dict) (k' : EKey) :
    lookupS (upsert s k d) k' =
      if k' = k then some ⟨d, aref0 (lookupS s k)⟩ else lookupS s k' := by
  induction s with
  | nil =>
    by_cases h : k' = k
    · subst h; simp [upsert, lookupS, aref0]
    · have h2 : ¬ k = k' := fun h' => h h'.symm
      simp [upsert, lookupS, aref0, h, h2]
  | cons hd t ih =>
    obtain ⟨k0, r0⟩ := hd
    by_cases h0 : k0 = k
    · subst h0
      by_cases h' : k' = k0
      · subst h'; simp [upsert, lookupS, aref0]
      · have h2 : ¬ k0 = k' := fun h => h' h.symm
        simp [upsert, lookupS, aref0, h', h2]
    · have h0' : ¬ k = k0 := fun h => h0 h.symm
      by_cases h' : k' = k0
      · subst h'
        simp [upsert, lookupS, aref0, h0, h0']
      · have h2 : ¬ k0 = k' := fun h => h' h.symm
        simp [upsert, lookupS, h0, h2, ih]

theorem keysS_upsert (s : Store) (k : EKey) (d : Dict) :
    keysS (upsert s k d) =
      if k ∈ keysS s then keysS s else keysS s ++ [k] := by
  induction s with
  | nil => simp [upsert, keysS]
  | cons hd t ih =>
    obtain ⟨k0, r0⟩ := hd
    by_cases h0 : k0 = k
    · subst h0; simp [upsert, keysS]
    · have h0' : ¬ k = k0 := fun h => h0 h.symm
      have hstep : keysS (upsert ((k0, r0) :: t) k d) = k0 :: keysS (upsert t k d) := by
        simp [upsert, h0, keysS]
      rw [hstep, ih]
      by_cases hm : k ∈ List.map Prod.fst t
      · simp [keysS, List.mem_cons, hm, h0']
      · simp [keysS, List.mem_cons, hm, h0']

theorem lookupS_none_of_not_mem (s : Store) (k : EKey) (h : k ∉ keysS s) :
    lookupS s k = none := by
  induction s with
  | nil => rfl
  | cons hd t ih =>
    obtain ⟨k0, r0⟩ := hd
    simp only [keysS, List.map_cons, List.mem_cons] at h
    push_neg at h
    simp only [lookupS, if_neg (fun h' : k0 = k => h.1 h'.symm)]
    exact ih (by simpa [keysS] using h.2)

theorem mem_of_lookupS_some (s : Store) (k : EKey) (r : ERow)
    (h : lookupS s k = some r) : k ∈ keysS s := by
  by_contra hm
  rw [lookupS_none_of_not_mem s k hm] at h
  exact Option.noConfusion h

theorem lookupS_applyEs (es : List Effect) (s : Store) (k : EKey) :
    lookupS (applyEs s es) k =
      match lastD es k with
      | some d => some ⟨d, aref0 (lookupS s k)⟩
      | none => lookupS s k := by
  induction es generalizing s with
  | nil => simp [applyEs_nil, lastD]
  | cons e rest ih =>
    rw [applyEs_cons, ih]
    simp only [lastD, applyE]
    by_cases hk : e.1 = k
    · subst hk
      rw [lookupS_upsert]
      simp only [if_pos rfl]
      cases lastD rest e.1 with
      | none => simp [aref0]
      | some d => simp [aref0]
    · rw [lookupS_upsert]
      simp only [if_neg (fun h : k = e.1 => hk h.symm)]
      cases lastD rest k with
      | none => simp [hk]
      | some d => simp

theorem keysS_applyEs_of_mem (es : List Effect) (s : Store)
    (h : ∀ e ∈ es, e.1 ∈ keysS s) : keysS (applyEs s es) = keysS s := by
  induction es generalizing s with
  | nil => rfl
  | cons e rest ih =>
    rw [applyEs_cons]
    have hk : keysS (applyE s e) = keysS s := by
      simp [applyE, keysS_upsert, h e (List.mem_cons_self e rest)]
    rw [ih (applyE s e) (fun e' he' => by
      rw [hk]; exact h e' (List.mem_cons_of_mem e he')), hk]

theorem lastD_isSome_of_mem (es : List Effect) (e : Effect) (h : e ∈ es) :
    (lastD es e.1).isSome := by
  induction es with
  | nil => simp at h
  | cons e' rest ih =>
    simp only [lastD]
    rcases List.mem_cons.mp h with h1 | h2
    · subst h1
      cases hD : lastD rest e.1 with
      | some d => simp
      | none => simp
    · have hs := ih h2
      cases hD : lastD rest e.1 with
      | some d => simp
      | none => rw [hD] at hs; simp at hs

theorem mem_keysS_applyEs (es : List Effect) (s : Store) (e : Effect)
    (h : e ∈ es) : e.1 ∈ keysS (applyEs s es) := by
  have h1 := lastD_isSome_of_mem es e h
  have h2 := lookupS_applyEs es s e.1
  cases hD : lastD es e.1 with
  | none => rw [hD] at h1; simp at h1
  | some d =>
    rw [hD] at h2
    exact mem_of_lookupS_some _ _ _ h2

theorem nodup_keysS_upsert (s : Store) (k : EKey) (d : Dict)
    (h : (keysS s).Nodup) : (keysS (upsert s k d)).Nodup := by
  rw [keysS_upsert]
  by_cases hm : k ∈ keysS s
  · simpa [hm] using h
  · simp only [if_neg hm]
    rw [List.nodup_append]
    refine ⟨h, List.nodup_singleton k, fun a ha hb => ?_⟩
    rw [List.mem_singleton] at hb
    exact hm (hb ▸ ha)

theorem nodup_keysS_applyEs (es : List Effect) (s : Store)
    (h : (keysS s).Nodup) : (keysS (applyEs s es)).Nodup := by
  induction es generalizing s with
  | nil => exact h
  | cons e rest ih =>
    rw [applyEs_cons]
    exact ih _ (nodup_keysS_upsert s e.1 e.2 h)

theorem store_ext (s1 s2 : Store) (hk : keysS s1 = keysS s2)
    (hn : (keysS s1).Nodup) (hl : ∀ k, lookupS s1 k = lookupS s2 k) :
    s1 = s2 := by
  induction s1 generalizing s2 with
  | nil =>
    cases s2 with
    | nil => rfl
    | cons hd t => simp [keysS] at hk
  | cons hd t1 ih =>
    obtain ⟨k, r⟩ := hd
    cases s2 with
    | nil => simp [keysS] at hk
    | cons hd2 t2 =>
      obtain ⟨k2, r2⟩ := hd2
      simp only [keysS, List.map_cons, List.cons.injEq] at hk
      obtain ⟨hkk, hkt⟩ := hk
      subst hkk
      have hr : r = r2 := by
        have := hl k
        simpa [lookupS] using this
      subst hr
      simp only [keysS, List.map_cons, List.nodup_cons] at hn
      have ht : t1 = t2 := by
        refine ih t2 (by simpa [keysS] using hkt) hn.2 (fun k' => ?_)
        by_cases hkk' : k' = k
        · subst hkk'
          rw [lookupS_none_of_not_mem t1 k' (by simpa [keysS] using hn.1),
            lookupS_none_of_not_mem t2 k'
              (by simpa [keysS, ← hkt] using hn.1)]
        · have hkn : ¬ k = k' := fun h => hkk' h.symm
          have hv := hl k'
          simpa [lookupS, hkn] using hv
      rw [ht]

/-- Replaying the same keyed writes over their own result changes
nothing. -/
theorem applyEs_idem (es : List Effect) (s : Store)
    (h : (keysS s).Nodup) :
    applyEs (applyEs s es) es = applyEs s es := by
  refine store_ext _ _ ?_ (nodup_keysS_applyEs es _ (nodup_keysS_applyEs es s h))
    (fun k => ?_)
  · exact keysS_applyEs_of_mem es (applyEs s es)
      (fun e he => mem_keysS_applyEs es s e he)
  · have hS1 := lookupS_applyEs es s k
    have hS2 := lookupS_applyEs es (applyEs s es) k
    cases hD : lastD es k with
    | none =>
      rw [hD] at hS1 hS2
      simp only [] at hS1 hS2
      rw [hS2]
    | some d =>
      rw [hD] at hS1 hS2
      simp only [] at hS1 hS2
      rw [hS2, hS1]
      simp [aref0]

theorem runStore_eq_applyEs (doc : List Record) (u : Nat → Nat) (i : Nat)
    (s : Store) : runStore doc u i s = applyEs s (effList doc u i) := by
  induction doc generalizing i s with
  | nil => rfl
  | cons r rest ih =>
    simp only [runStore, effList]
    cases h : (dispatch r (u i)).kind with
    | applied e =>
      simp only [h, applyEs_cons]
      exact ih (i + 1) (upsert s e.1 e.2)
    | skippedK =>
      simp only [h]
      exact ih (i + 1) s
    | haltedK err => simp only [h, applyEs_nil]

/-- A record whose processing cannot depend on the `uuid.uuid4()` value:
any record except a qualification record whose (present) meta omits
`RefAirfield`. -/
def freshSafe (r : Record) : Bool :=
  match jLookup r.top "table" with
  | some (.js t) =>
    if lowerStr t = "qualification" then
      (match r.rmeta with
       | some m => jHas m "RefAirfield"
       | none => true)
    else true
  | _ => true

def docFreshSafe (doc : List Record) : Bool := doc.all freshSafe

theorem import_qualification_fresh_indep (r : Record) (a b : Nat)
    (h : (match r.rmeta with
          | some m => jHas m "RefAirfield"
          | none => true) = true) :
    import_qualification r a = import_qualification r b := by
  unfold import_qualification
  cases hg : jGet r.top "guid" .null with
  | null => rfl
  | jb bb => rfl
  | ji n => rfl
  | js gs =>
    by_cases hv : validate_guid (.js gs)
    · simp only [if_pos hv]
      cases hm : r.rmeta with
      | none => rfl
      | some meta =>
        rw [hm] at h
        have hsome : (jLookup meta "RefAirfield").isSome := by
          simpa [jHas] using h
        have hd : ∀ qn : Nat, qualification_defaults r meta qn a =
            qualification_defaults r meta qn b := by
          intro qn
          unfold qualification_defaults
          cases hra : jLookup meta "RefAirfield" with
          | none => rw [hra] at hsome; simp at hsome
          | some v => rfl
        simp only [hd]
    · simp only [if_neg hv]

theorem call_importer_fresh_indep (tn : String) (r : Record) (a b : Nat)
    (h : tn = "qualification" →
      (match r.rmeta with
       | some m => jHas m "RefAirfield"
       | none => true) = true) :
    call_importer tn r a = call_importer tn r b := by
  by_cases h8 : tn = "qualification"
  · unfold call_importer
    rw [import_qualification_fresh_indep r a b (h h8)]
  · unfold call_importer
    simp [h8]

theorem dispatch_fresh_indep (r : Record) (a b : Nat)
    (h : freshSafe r = true) : dispatch r a = dispatch r b := by
  unfold dispatch
  unfold freshSafe at h
  cases ht : jLookup r.top "table" with
  | none => rfl
  | some tv =>
    rw [ht] at h
    cases tv with
    | null => rfl
    | jb bb => rfl
    | ji n => rfl
    | js t =>
      dsimp only at h ⊢
      rw [call_importer_fresh_indep (lowerStr t) r a b (fun heq => by
        rw [if_pos heq] at h; exact h)]

theorem effList_fresh_indep (doc : List Record) (u u' : Nat → Nat) (i j : Nat)
    (h : docFreshSafe doc = true) : effList doc u i = effList doc u' j := by
  induction doc generalizing i j with
  | nil => rfl
  | cons r rest ih =>
    rw [docFreshSafe, List.all_cons, Bool.and_eq_true] at h
    simp only [effList]
    rw [dispatch_fresh_indep r (u i) (u' j) h.1]
    cases hk : (dispatch r (u' j)).kind with
    | applied e =>
      rw [ih (i + 1) (j + 1) h.2]
    | skippedK => exact ih (i + 1) (j + 1) h.2
    | haltedK err => rfl

/-! ### Round trip: `uuid.UUID(str(uuid.UUID(int=n))) = n` -/

theorem hexVal_hexDigit : ∀ m : Nat, m < 16 → hexVal (hexDigit m) = m := by decide

theorem isHexChar_hexDigit : ∀ m : Nat, m < 16 → isHexChar (hexDigit m) = true := by
  decide

theorem hexDigit_ne_hyphen : ∀ m : Nat, m < 16 → hexDigit m ≠ '-' := by decide

theorem hexDigit_ne_colon : ∀ m : Nat, m < 16 → hexDigit m ≠ ':' := by decide

theorem hexDigit_not_brace : ∀ m : Nat, m < 16 → isBrace (hexDigit m) = false := by
  decide

theorem toHexN_length (k n : Nat) : (toHexN k n).length = k := by
  induction k generalizing n with
  | zero => rfl
  | succ k ih => simp [toHexN, ih]

theorem toHexN_mem (k n : Nat) (c : Char) (h : c ∈ toHexN k n) :
    ∃ m, m < 16 ∧ c = hexDigit m := by
  induction k generalizing n with
  | zero => simp [toHexN] at h
  | succ k ih =>
    simp only [toHexN, List.mem_append, List.mem_singleton] at h
    rcases h with h | h
    · exact ih _ h
    · exact ⟨n % 16, Nat.mod_lt n (by norm_num), h⟩

theorem fromHexAux_append (a : Nat) (xs : List Char) (c : Char) :
    fromHexAux a (xs ++ [c]) = fromHexAux a xs * 16 + hexVal c := by
  induction xs generalizing a with
  | nil => rfl
  | cons x xs ih => simp [fromHexAux, ih]

theorem fromHex_toHexN (k n : Nat) : fromHex (toHexN k n) = n % 16 ^ k := by
  induction k generalizing n with
  | zero => simp [toHexN, fromHex, fromHexAux, Nat.mod_one]
  | succ k ih =>
    rw [toHexN]
    unfold fromHex at ih ⊢
    rw [fromHexAux_append, ih, hexVal_hexDigit (n % 16) (Nat.mod_lt n (by norm_num))]
    rw [pow_succ, Nat.mul_comm (16 ^ k) 16, Nat.mod_mul]
    ring

theorem removeUrn_no_colon (l : List Char) (h : ':' ∉ l) : removeUrn l = l := by
  induction l using removeUrn.induct with
  | case1 rest ih =>
    exfalso
    apply h
    simp
  | case2 c rest hne ih =>
    rw [show removeUrn (c :: rest) = c :: removeUrn rest from ?_]
    · rw [ih (fun hm => h (List.mem_cons_of_mem c hm))]
    · rw [removeUrn.eq_def]
      split
      · rename_i rest1 heq
        simp only [List.cons.injEq] at heq
        exact (hne rest1 heq.1 heq.2).elim
      · rename_i heq
        simp only [List.cons.injEq] at heq
        rw [heq.1, heq.2]
      · rename_i heq
        exact absurd heq (by simp)
  | case3 => rfl

theorem removeUuidTag_no_colon (l : List Char) (h : ':' ∉ l) :
    removeUuidTag l = l := by
  induction l using removeUuidTag.induct with
  | case1 rest ih =>
    exfalso
    apply h
    simp
  | case2 c rest hne ih =>
    rw [show removeUuidTag (c :: rest) = c :: removeUuidTag rest from ?_]
    · rw [ih (fun hm => h (List.mem_cons_of_mem c hm))]
    · rw [removeUuidTag.eq_def]
      split
      · rename_i rest1 heq
        simp only [List.cons.injEq] at heq
        exact (hne rest1 heq.1 heq.2).elim
      · rename_i heq
        simp only [List.cons.injEq] at heq
        rw [heq.1, heq.2]
      · rename_i heq
        exact absurd heq (by simp)
  | case3 => rfl

theorem dropWhile_eq_self_of_all (p : Char → Bool) (l : List Char)
    (h : ∀ c ∈ l, p c = false) : l.dropWhile p = l := by
  cases l with
  | nil => rfl
  | cons c rest => simp [List.dropWhile_cons, h c (List.mem_cons_self c rest)]

theorem filter_hyphen_hex (l : List Char)
    (hl : ∀ c ∈ l, ∃ m, m < 16 ∧ c = hexDigit m) :
    l.filter (fun c => c ≠ '-') = l := by
  rw [List.filter_eq_self]
  intro c hc
  rcases hl c hc with ⟨m, hm, he⟩
  subst he
  simpa using hexDigit_ne_hyphen m hm

/-- Normalising a canonically formatted hex string (five hex-digit
segments joined by hyphens) recovers the digit list. -/
theorem uuidNormalizeL_canonical (L : List Char)
    (hhx : ∀ c ∈ L, ∃ m, m < 16 ∧ c = hexDigit m) :
    uuidNormalizeL (L.take 8 ++ '-' :: (L.drop 8).take 4 ++ '-' ::
      (L.drop 12).take 4 ++ '-' :: (L.drop 16).take 4 ++ '-' :: L.drop 20)
      = L := by
  have hmem : ∀ c ∈ (L.take 8 ++ '-' :: (L.drop 8).take 4 ++ '-' ::
      (L.drop 12).take 4 ++ '-' :: (L.drop 16).take 4 ++ '-' :: L.drop 20),
      c = '-' ∨ ∃ m, m < 16 ∧ c = hexDigit m := by
    intro c hc
    simp only [List.mem_append, List.mem_cons] at hc
    rcases hc with (((hc | hc | hc) | hc | hc) | hc | hc) | hc | hc
    · exact Or.inr (hhx c (List.take_subset 8 _ hc))
    · exact Or.inl hc
    · exact Or.inr (hhx c (List.drop_subset 8 _ (List.take_subset 4 _ hc)))
    · exact Or.inl hc
    · exact Or.inr (hhx c (List.drop_subset 12 _ (List.take_subset 4 _ hc)))
    · exact Or.inl hc
    · exact Or.inr (hhx c (List.drop_subset 16 _ (List.take_subset 4 _ hc)))
    · exact Or.inl hc
    · exact Or.inr (hhx c (List.drop_subset 20 _ hc))
  have hcolon : ':' ∉ (L.take 8 ++ '-' :: (L.drop 8).take 4 ++ '-' ::
      (L.drop 12).take 4 ++ '-' :: (L.drop 16).take 4 ++ '-' :: L.drop 20) := by
    intro hc
    rcases hmem ':' hc with h | ⟨m, hm, he⟩
    · exact absurd h (by decide)
    · exact hexDigit_ne_colon m hm he.symm
  have hbrace : ∀ c ∈ (L.take 8 ++ '-' :: (L.drop 8).take 4 ++ '-' ::
      (L.drop 12).take 4 ++ '-' :: (L.drop 16).take 4 ++ '-' :: L.drop 20),
      isBrace c = false := by
    intro c hc
    rcases hmem c hc with h | ⟨m, hm, he⟩
    · rw [h]; decide
    · rw [he]; exact hexDigit_not_brace m hm
  unfold uuidNormalizeL
  rw [removeUrn_no_colon _ hcolon, removeUuidTag_no_colon _ hcolon,
    dropWhile_eq_self_of_all _ _ hbrace,
    dropWhile_eq_self_of_all _ _ (fun c hc => hbrace c (List.mem_reverse.mp hc)),
    List.reverse_reverse]
  have h1 := filter_hyphen_hex _ (fun c hc => hhx c (List.take_subset 8 _ hc))
  have h2 := filter_hyphen_hex _ (fun c hc => hhx c
    (List.drop_subset 8 _ (List.take_subset 4 _ hc)))
  have h3 := filter_hyphen_hex _ (fun c hc => hhx c
    (List.drop_subset 12 _ (List.take_subset 4 _ hc)))
  have h4 := filter_hyphen_hex _ (fun c hc => hhx c
    (List.drop_subset 16 _ (List.take_subset 4 _ hc)))
  have h5 := filter_hyphen_hex _ (fun c hc => hhx c (List.drop_subset 20 _ hc))
  simp only [List.filter_append, List.filter_cons]
  simp only [h1, h2, h3, h4, h5]
  simp only [show (decide (('-' : Char) ≠ '-')) = false by decide,
    Bool.false_eq_true, if_false]
  have t1 : L.take 8 ++ (L.drop 8).take 4 = L.take 12 :=
    (List.take_add _ 8 4).symm
  have t2 : L.take 12 ++ (L.drop 12).take 4 = L.take 16 :=
    (List.take_add _ 12 4).symm
  have t3 : L.take 16 ++ (L.drop 16).take 4 = L.take 20 :=
    (List.take_add _ 16 4).symm
  have t4 : L.take 20 ++ L.drop 20 = L := List.take_append_drop 20 _
  rw [t1, t2, t3, t4]

theorem uuidNormalize_uuidToStr (n : Nat) :
    uuidNormalize (uuidToStr n) = toHexN 32 n := by
  have htl : uuidNormalize (uuidToStr n) = uuidNormalizeL (uuidChars n) := rfl
  rw [htl]
  exact uuidNormalizeL_canonical (toHexN 32 n)
    (fun c hc => toHexN_mem 32 n c hc)

/-- A derived SettingConfig identifier survives the re-parse: the
canonical string of `uuid.UUID(int=n)` parses back to `n`. -/
theorem pyUUIDparse_uuidToStr (n : Nat) (h : n < 2 ^ 128) :
    pyUUIDparse (uuidToStr n) = some n := by
  unfold pyUUIDparse
  rw [uuidNormalize_uuidToStr]
  have hlen : (toHexN 32 n).length = 32 := toHexN_length 32 n
  have hhex : (toHexN 32 n).all isHexChar = true := by
    rw [List.all_eq_true]
    intro c hc
    rcases toHexN_mem 32 n c hc with ⟨m, hm, he⟩
    rw [he]
    exact isHexChar_hexDigit m hm
  have hc : (decide ((toHexN 32 n).length = 32) &&
      (toHexN 32 n).all isHexChar) = true := by
    rw [hhex, Bool.and_true, hlen]
    simp
  rw [hc]
  simp only [if_pos rfl]
  have hmod : n % 16 ^ 32 = n := Nat.mod_eq_of_lt (by
    calc n < 2 ^ 128 := h
      _ = 16 ^ 32 := by norm_num)
  rw [fromHex_toHexN, hmod]
  simp

/-! ### Claim theorems -/

/-- C6: the coercion utilities never throw (they are total functions by
construction, every fallible primitive being wrapped in the matching
`try/except`): date coercion of the empty string, of null, and of the
malformed string `13/32/2024` yields no date (`None`), the last with a
diagnostic; decimal coercion of `abc` with default 0 yields `Decimal(0)`
with a diagnostic, while absence (falsy input) silently yields the
default; integer coercion of the empty string yields `None` silently. -/
theorem coercion_defaults_C6 :
    get_valid_date (.js "") = (.pnone, []) ∧
    get_valid_date .null = (.pnone, []) ∧
    get_valid_date (.js "13/32/2024") =
      (.pnone, ["Invalid date format for value: 13/32/2024. Skipping."]) ∧
    get_valid_decimal (.js "abc") 0 =
      (.dec 0 0, ["Invalid decimal value for abc. Using default value."]) ∧
    get_valid_decimal .null 0 = (.dec 0 0, []) ∧
    get_valid_decimal (.js "") 0 = (.dec 0 0, []) ∧
    get_valid_integer (.js "") = (.pnone, []) := by
  decide

/-- C7: a flight record whose guid fails the 36-character gate is skipped
by `import_flights` with a diagnostic naming the guid, and a run over the
record leaves every store unchanged (no Flight row is created or
modified). -/
theorem flight_invalid_guid_skipped_C7 (r : Record)
    (hv : validate_guid (jGet r.top "guid" .null) = false) :
    (import_flights r).kind = .skippedK ∧
    (∀ st, (import_flights r).logs st =
      ["Invalid or missing GUID: " ++ jDisp (jGet r.top "guid" .null)]) ∧
    (∀ u i s, jLookup r.top "table" = some (.js "flight") →
      runStore [r] u i s = s) := by
  have hflight : (import_flights r).kind = .skippedK ∧
      ∀ st, (import_flights r).logs st =
        ["Invalid or missing GUID: " ++ jDisp (jGet r.top "guid" .null)] := by
    unfold import_flights
    cases hg : jGet r.top "guid" .null with
    | js gs =>
      rw [hg] at hv
      have hvn : ¬ validate_guid (.js gs) = true := by
        rw [hv]
        simp
      dsimp only
      rw [if_neg hvn]
      exact ⟨rfl, fun st => rfl⟩
    | null => exact ⟨rfl, fun st => rfl⟩
    | jb bb => exact ⟨rfl, fun st => rfl⟩
    | ji n => exact ⟨rfl, fun st => rfl⟩
  refine ⟨hflight.1, hflight.2, fun u i s ht => ?_⟩
  have hdisp : (dispatch r (u i)).kind = .skippedK ∨
      ∃ e, (dispatch r (u i)).kind = .haltedK e := by
    unfold dispatch
    rw [ht]
    dsimp only
    rw [show lowerStr "flight" = "flight" from rfl,
      show call_importer "flight" r (u i) = some (import_flights r) from rfl]
    dsimp only
    rw [hflight.1]
    cases jLookup r.top "guid" with
    | none => exact Or.inr ⟨"KeyError: guid", rfl⟩
    | some gv => exact Or.inl rfl
  rcases hdisp with hd | ⟨e, hd⟩
  · simp [runStore, hd]
  · simp [runStore, hd]

theorem call_importer_eq_none (tn : String) (r : Record) (f : Nat)
    (h : Table_Mapping tn = false) : call_importer tn r f = none := by
  unfold Table_Mapping at h
  simp only [Bool.or_eq_false_iff, decide_eq_false_iff_not] at h
  obtain ⟨⟨⟨⟨⟨⟨⟨⟨⟨h1, h2⟩, h3⟩, h4⟩, h5⟩, h6⟩, h7⟩, h8⟩, h9⟩, h10⟩ := h
  unfold call_importer
  simp [h1, h2, h3, h4, h5, h6, h7, h8, h9, h10]

/-- C8: a record whose lower-cased `table` value is not in the fixed
mapping is skipped by the dispatcher with a diagnostic naming the unknown
table, performs no store mutation, and the run continues with the next
record. -/
theorem unknown_table_skipped_C8 (r : Record) (rest : List Record)
    (t : String) (u : Nat → Nat) (i : Nat) (s : Store)
    (h1 : jLookup r.top "table" = some (.js t))
    (h2 : Table_Mapping (lowerStr t) = false) :
    (dispatch r (u i)).kind = .skippedK ∧
    (∀ st, (dispatch r (u i)).logs st =
      ["No import method for table: " ++ lowerStr t]) ∧
    runStore (r :: rest) u i s = runStore rest u (i + 1) s := by
  have hd : dispatch r (u i) =
      ⟨.skippedK, fun _ => ["No import method for table: " ++ lowerStr t]⟩ := by
    unfold dispatch
    rw [h1]
    dsimp only
    rw [call_importer_eq_none (lowerStr t) r (u i) h2]
  refine ⟨by rw [hd], fun st => by rw [hd], ?_⟩
  simp only [runStore, hd]

/-- A flight record bearing the 14-character guid of the spec. -/
def recC7 : Record :=
  ⟨[("table", .js "flight"), ("guid", .js "not-a-valid-id"),
    ("user_id", .ji 1), ("platform", .ji 1), ("_modified", .ji 100)],
   some []⟩

theorem flight_invalid_guid_skipped_C7_witness :
    validate_guid (jGet recC7.top "guid" .null) = false ∧
    (import_flights recC7).kind = .skippedK ∧
    (import_flights recC7).logs [] =
      ["Invalid or missing GUID: not-a-valid-id"] ∧
    runStore [recC7] (fun _ => 0) 0 [] = [] := by
  have h := flight_invalid_guid_skipped_C7 recC7 (by decide)
  refine ⟨by decide, h.1, ?_, h.2.2 (fun _ => 0) 0 [] (by decide)⟩
  rw [h.2.1 []]
  decide

/-- A record with the spec's unknown table tag. -/
def recC8 : Record :=
  ⟨[("table", .js "unknowntable"), ("guid", .js "x")], some []⟩

theorem unknown_table_skipped_C8_witness :
    jLookup recC8.top "table" = some (.js "unknowntable") ∧
    Table_Mapping (lowerStr "unknowntable") = false ∧
    (dispatch recC8 0).kind = .skippedK ∧
    (dispatch recC8 0).logs [] = ["No import method for table: unknowntable"] ∧
    runStore [recC8] (fun _ => 0) 0 [] = runStore [] (fun _ => 0) 1 [] := by
  have h := unknown_table_skipped_C8 recC8 [] "unknowntable" (fun _ => 0) 0 []
    (by decide) (by decide)
  refine ⟨by decide, by decide, h.1, ?_, h.2.2⟩
  rw [h.2.1 []]
  decide

theorem validate_guid_iff (v : JVal) :
    validate_guid v = true ↔ ∃ s, v = .js s ∧ s.length = 36 := by
  constructor
  · intro h
    cases v with
    | js s =>
      refine ⟨s, rfl, ?_⟩
      unfold validate_guid at h
      rw [Bool.and_eq_true] at h
      exact of_decide_eq_true h.2
    | null => simp [validate_guid] at h
    | jb bb => simp [validate_guid] at h
    | ji n => simp [validate_guid] at h
  · rintro ⟨s, rfl, hlen⟩
    unfold validate_guid jTruthy
    rw [Bool.and_eq_true]
    refine ⟨decide_eq_true ?_, by simp [hlen]⟩
    intro he
    rw [he] at hlen
    simp at hlen

/-- C10: `validate_guid` accepts exactly the strings of length 36
(non-emptiness is subsumed: a length-36 string is truthy), regardless of
content; and a flight record whose guid is a 36-character string that
`uuid.UUID` cannot parse passes the gate and then raises (the step
halts), rather than being skipped. -/
theorem validate_guid_length_only_C10 :
    (∀ v : JVal, validate_guid v = true ↔ ∃ s, v = .js s ∧ s.length = 36) ∧
    (∀ (s : String) (r : Record) (meta : JDict), s.length = 36 →
      pyUUIDparse s = none →
      jGet r.top "guid" .null = .js s → r.rmeta = some meta →
      validate_guid (.js s) = true ∧
      (import_flights r).kind =
        .haltedK "ValueError: badly formed hexadecimal UUID string") := by
  refine ⟨validate_guid_iff, ?_⟩
  intro s r meta hlen hparse hg hm
  have hv : validate_guid (.js s) = true :=
    (validate_guid_iff (.js s)).mpr ⟨s, rfl, hlen⟩
  refine ⟨hv, ?_⟩
  unfold import_flights
  rw [hg]
  dsimp only
  rw [if_pos hv, hm]
  dsimp only
  rw [hparse]
  rfl

/-- The 36-character string of `z` characters. -/
def zstrC10 : String := "zzzzzzzzzzzzzzzzzzzzzzzzzzzzzzzzzzzz"

/-- A flight record bearing a 36-character non-hex guid. -/
def recC10 : Record :=
  ⟨[("table", .js "flight"), ("guid", .js zstrC10)], some []⟩

theorem validate_guid_length_only_C10_witness :
    (zstrC10.length = 36 ∧ pyUUIDparse zstrC10 = none) ∧
    validate_guid (.js zstrC10) = true ∧
    (import_flights recC10).kind =
      .haltedK "ValueError: badly formed hexadecimal UUID string" := by
  have h := validate_guid_length_only_C10.2 zstrC10 recC10 []
    (by decide) (by decide) (by decide) (by decide)
  exact ⟨⟨by decide, by decide⟩, h.1, h.2⟩

/-- A settingconfig record whose guid is a purely numeric string of
length exactly 36. -/
def recC5x : Record :=
  ⟨[("table", .js "settingconfig"),
    ("guid", .js "111111111111111111111111111111111111"),
    ("user_id", .ji 1), ("platform", .ji 1), ("_modified", .ji 100)],
   some [("ConfigCode", .ji 7)]⟩

/-- C5 counterexample: a purely numeric settingconfig guid of length 36
passes `validate_guid`, skips the derivation branch, and the subsequent
`uuid.UUID(guid)` raises: the record is rejected and creates no row,
refuting the claim for this purely numeric string. -/
theorem settingconfig_numeric36_halts_C5x :
    isDigitStr "111111111111111111111111111111111111" = true ∧
    (import_settingconfig recC5x).kind =
      .haltedK "ValueError: badly formed hexadecimal UUID string" ∧
    runStore [recC5x] (fun _ => 0) 0 [] = [] := by
  decide

/-- C5 amended: for every settingconfig record whose guid is a purely
numeric string of length other than 36 and of numeric value below 2^128
(the range `uuid.UUID(int=...)` accepts), with a meta object present, the
importer does not reject the record: it derives the identifier whose
128-bit integer value is the number and applies the upsert keyed by it. -/
theorem settingconfig_numeric_derived_C5 (r : Record) (gs : String)
    (meta : JDict)
    (h1 : jGet r.top "guid" .null = .js gs)
    (h2 : isDigitStr gs = true)
    (h3 : gs.length ≠ 36)
    (h4 : digitsToNat gs.toList < 2 ^ 128)
    (h5 : r.rmeta = some meta) :
    (import_settingconfig r).kind =
      .applied (.settingK (digitsToNat gs.toList),
        settingconfig_defaults r meta) := by
  have hv : validate_guid (.js gs) = false := by
    simp [validate_guid, h3]
  unfold import_settingconfig
  rw [h1]
  dsimp only
  simp only [hv, h2, h5, decide_eq_true h4]
  simp only [Bool.false_eq_true, decide_False, Bool.not_false, Bool.true_and,
    Bool.and_self, Bool.false_or, if_true, not_false_eq_true, decide_True,
    if_false]
  rw [pyUUIDparse_uuidToStr _ h4]

/-- A settingconfig record with the short numeric guid `123`. -/
def recC5w : Record :=
  ⟨[("table", .js "settingconfig"), ("guid", .js "123"),
    ("user_id", .ji 1), ("platform", .ji 1), ("_modified", .ji 100)],
   some [("Name", .js "cfg")]⟩

theorem settingconfig_numeric_derived_C5_witness :
    isDigitStr "123" = true ∧ ("123" : String).length ≠ 36 ∧
    digitsToNat ("123" : String).toList < 2 ^ 128 ∧
    (import_settingconfig recC5w).kind =
      .applied (.settingK 123,
        settingconfig_defaults recC5w [("Name", .js "cfg")]) := by
  have h := settingconfig_numeric_derived_C5 recC5w "123" [("Name", .js "cfg")]
    (by decide) (by decide) (by decide) (by decide) (by decide)
  exact ⟨by decide, by decide, by decide, h⟩

/-- An aircraft record with a malformed (2-character) guid. -/
def recC3x : Record :=
  ⟨[("table", .js "aircraft"), ("guid", .js "xx"),
    ("user_id", .ji 1), ("platform", .ji 1), ("_modified", .ji 100)],
   some [("Make", .js "Cessna")]⟩

/-- A well-formed aircraft record (would import successfully). -/
def recC3y : Record :=
  ⟨[("table", .js "aircraft"),
    ("guid", .js "00000000-0000-0000-0000-0000000000aa"),
    ("user_id", .ji 1), ("platform", .ji 1), ("_modified", .ji 100)],
   some [("Make", .js "Piper")]⟩

/-- C3 counterexample: the aircraft importer performs no guid validation;
a record with a malformed guid raises inside `uuid.UUID` and halts the
batch, so a well-formed record following it is never processed (the store
stays empty), refuting skip-and-continue for every importer. -/
theorem aircraft_invalid_guid_halts_C3x :
    (import_aircraft recC3x).kind =
      .haltedK "ValueError: badly formed hexadecimal UUID string" ∧
    runStore [recC3x, recC3y] (fun _ => 0) 0 [] = [] := by
  decide

theorem import_imagepic_skip (r : Record)
    (hv : validate_guid (jGet r.top "guid" .null) = false) :
    (import_imagepic r).kind = .skippedK := by
  unfold import_imagepic
  cases hg : jGet r.top "guid" .null with
  | js gs =>
    rw [hg] at hv
    have hvn : ¬ validate_guid (.js gs) = true := by rw [hv]; simp
    dsimp only
    rw [if_neg hvn]
  | null => rfl
  | jb bb => rfl
  | ji n => rfl

theorem import_limitrules_skip (r : Record)
    (hv : validate_guid (jGet r.top "guid" .null) = false) :
    (import_limitrules r).kind = .skippedK := by
  unfold import_limitrules
  cases hg : jGet r.top "guid" .null with
  | js gs =>
    rw [hg] at hv
    have hvn : ¬ validate_guid (.js gs) = true := by rw [hv]; simp
    dsimp only
    rw [if_neg hvn]
  | null => rfl
  | jb bb => rfl
  | ji n => rfl

theorem import_myquery_skip (r : Record)
    (hv : validate_guid (jGet r.top "guid" .null) = false) :
    (import_myquery r).kind = .skippedK := by
  unfold import_myquery
  cases hg : jGet r.top "guid" .null with
  | js gs =>
    rw [hg] at hv
    have hvn : ¬ validate_guid (.js gs) = true := by rw [hv]; simp
    dsimp only
    rw [if_neg hvn]
  | null => rfl
  | jb bb => rfl
  | ji n => rfl

theorem import_myquerybuild_skip (r : Record)
    (hv : validate_guid (jGet r.top "guid" .null) = false) :
    (import_myquerybuild r).kind = .skippedK := by
  unfold import_myquerybuild
  cases hg : jGet r.top "guid" .null with
  | js gs =>
    rw [hg] at hv
    have hvn : ¬ validate_guid (.js gs) = true := by rw [hv]; simp
    dsimp only
    rw [if_neg hvn]
  | null => rfl
  | jb bb => rfl
  | ji n => rfl

theorem import_pilot_skip (r : Record)
    (hv : validate_guid (jGet r.top "guid" .null) = false) :
    (import_pilot r).kind = .skippedK := by
  unfold import_pilot
  cases hg : jGet r.top "guid" .null with
  | js gs =>
    rw [hg] at hv
    have hvn : ¬ validate_guid (.js gs) = true := by rw [hv]; simp
    dsimp only
    rw [if_neg hvn]
  | null => rfl
  | jb bb => rfl
  | ji n => rfl

theorem import_qualification_skip (r : Record) (f : Nat)
    (hv : validate_guid (jGet r.top "guid" .null) = false) :
    (import_qualification r f).kind = .skippedK := by
  unfold import_qualification
  cases hg : jGet r.top "guid" .null with
  | js gs =>
    rw [hg] at hv
    have hvn : ¬ validate_guid (.js gs) = true := by rw [hv]; simp
    dsimp only
    rw [if_neg hvn]
  | null => rfl
  | jb bb => rfl
  | ji n => rfl

theorem import_airfield_skip (r : Record)
    (hv : validate_guid (jGet r.top "guid" .null) = false) :
    (import_airfield r).kind = .skippedK := by
  unfold import_airfield
  cases hg : jGet r.top "guid" .null with
  | js gs =>
    rw [hg] at hv
    have hvn : ¬ validate_guid (.js gs) = true := by rw [hv]; simp
    dsimp only
    rw [if_neg hvn]
  | null => rfl
  | jb bb => rfl
  | ji n => rfl

theorem import_flights_skip (r : Record)
    (hv : validate_guid (jGet r.top "guid" .null) = false) :
    (import_flights r).kind = .skippedK := by
  unfold import_flights
  cases hg : jGet r.top "guid" .null with
  | js gs =>
    rw [hg] at hv
    have hvn : ¬ validate_guid (.js gs) = true := by rw [hv]; simp
    dsimp only
    rw [if_neg hvn]
  | null => rfl
  | jb bb => rfl
  | ji n => rfl

theorem dispatch_kind_skip (r : Record) (f : Nat) (t : String) (o : StepOut)
    (gv : JVal)
    (ht : jLookup r.top "table" = some (.js t))
    (hc : call_importer (lowerStr t) r f = some o)
    (hk : o.kind = .skippedK)
    (hg : jLookup r.top "guid" = some gv) :
    (dispatch r f).kind = .skippedK := by
  unfold dispatch
  rw [ht]
  dsimp only
  rw [hc]
  dsimp only
  rw [hk]
  dsimp only
  rw [hg]

/-- C3 amended: for the eight importers that gate on `validate_guid`
(flight, imagepic, limitrules, myquery, myquerybuild, pilot,
qualification, airfield), a record bearing a guid entry whose value fails
the 36-character check is skipped with a diagnostic and processing
continues with the next record.  The aircraft importer performs no
validation (an unparseable guid raises and halts the batch), and the
settingconfig importer raises on invalid non-numeric or non-string
guids. -/
theorem invalid_guid_skipped_C3 (r : Record) (rest : List Record)
    (u : Nat → Nat) (i : Nat) (s : Store) (t : String) (f : Nat)
    (hv : validate_guid (jGet r.top "guid" .null) = false) :
    (import_flights r).kind = .skippedK ∧
    (import_imagepic r).kind = .skippedK ∧
    (import_limitrules r).kind = .skippedK ∧
    (import_myquery r).kind = .skippedK ∧
    (import_myquerybuild r).kind = .skippedK ∧
    (import_pilot r).kind = .skippedK ∧
    (import_qualification r f).kind = .skippedK ∧
    (import_airfield r).kind = .skippedK ∧
    (jLookup r.top "table" = some (.js t) →
      lowerStr t ∈ (["flight", "imagepic", "limitrules", "myquery",
        "myquerybuild", "pilot", "qualification", "airfield"] : List String) →
      (jLookup r.top "guid").isSome = true →
      runStore (r :: rest) u i s = runStore rest u (i + 1) s) := by
  refine ⟨import_flights_skip r hv, import_imagepic_skip r hv,
    import_limitrules_skip r hv, import_myquery_skip r hv,
    import_myquerybuild_skip r hv, import_pilot_skip r hv,
    import_qualification_skip r f hv, import_airfield_skip r hv,
    fun ht hmem hsome => ?_⟩
  rw [Option.isSome_iff_exists] at hsome
  obtain ⟨gv, hg⟩ := hsome
  have hd : (dispatch r (u i)).kind = .skippedK := by
    simp only [List.mem_cons, List.mem_singleton, List.not_mem_nil,
      or_false] at hmem
    rcases hmem with h | h | h | h | h | h | h | h
    · exact dispatch_kind_skip r (u i) t (import_flights r) gv ht
        (by rw [h]; rfl) (import_flights_skip r hv) hg
    · exact dispatch_kind_skip r (u i) t (import_imagepic r) gv ht
        (by rw [h]; rfl) (import_imagepic_skip r hv) hg
    · exact dispatch_kind_skip r (u i) t (import_limitrules r) gv ht
        (by rw [h]; rfl) (import_limitrules_skip r hv) hg
    · exact dispatch_kind_skip r (u i) t (import_myquery r) gv ht
        (by rw [h]; rfl) (import_myquery_skip r hv) hg
    · exact dispatch_kind_skip r (u i) t (import_myquerybuild r) gv ht
        (by rw [h]; rfl) (import_myquerybuild_skip r hv) hg
    · exact dispatch_kind_skip r (u i) t (import_pilot r) gv ht
        (by rw [h]; rfl) (import_pilot_skip r hv) hg
    · exact dispatch_kind_skip r (u i) t (import_qualification r (u i)) gv ht
        (by rw [h]; rfl) (import_qualification_skip r (u i) hv) hg
    · exact dispatch_kind_skip r (u i) t (import_airfield r) gv ht
        (by rw [h]; rfl) (import_airfield_skip r hv) hg
  simp only [runStore, hd]

/-- A pilot record with a short malformed guid. -/
def recC3w : Record :=
  ⟨[("table", .js "pilot"), ("guid", .js "short"),
    ("user_id", .ji 1), ("platform", .ji 1), ("_modified", .ji 100)],
   some []⟩

theorem invalid_guid_skipped_C3_witness :
    validate_guid (jGet recC3w.top "guid" .null) = false ∧
    (import_pilot recC3w).kind = .skippedK ∧
    runStore [recC3w] (fun _ => 0) 0 [] = runStore [] (fun _ => 0) 1 [] := by
  have h := invalid_guid_skipped_C3 recC3w [] (fun _ => 0) 0 [] "pilot" 0
    (by decide)
  exact ⟨by decide, h.2.2.2.2.2.1,
    h.2.2.2.2.2.2.2.2 (by decide) (by decide) (by decide)⟩

/-- An imagepic record with a valid guid whose meta omits `ImgCode`. -/
def recC9x : Record :=
  ⟨[("table", .js "imagepic"),
    ("guid", .js "00000000-0000-0000-0000-0000000000bb"),
    ("user_id", .ji 1), ("platform", .ji 1), ("_modified", .ji 100)],
   some [("FileName", .js "img.png")]⟩

/-- C9 counterexample: an imagepic record with a valid identifier and all
envelope fields whose meta merely omits `ImgCode` (a subset of its meta
fields) is not imported: `meta[ImgCode]` is a direct subscript with no
default and raises `KeyError`, halting the batch with no row created. -/
theorem imagepic_missing_imgcode_halts_C9x :
    validate_guid (jGet recC9x.top "guid" .null) = true ∧
    (import_imagepic recC9x).kind = .haltedK "KeyError: ImgCode" ∧
    runStore [recC9x] (fun _ => 0) 0 [] = [] := by
  decide

/-- C9 amended: the defaults policy holds except for two reads: ImagePic
reads `ImgCode` by direct subscript (a record omitting it fails with
`KeyError`), and Qualification reads `QCode` through `.get` with a `None`
default that `uuid.UUID` then rejects (`TypeError`).  Every other
Qualification meta field has an effective default, so a qualification
record with a valid identifier, the envelope fields, and a parseable
`QCode` imports successfully whatever other subset of meta fields is
omitted. -/
theorem meta_defaults_C9 (r : Record) (gs : String) (meta : JDict)
    (g : Nat) (f : Nat)
    (hg : jGet r.top "guid" .null = .js gs)
    (hlen : gs.length = 36)
    (hp : pyUUIDparse gs = some g)
    (hm : r.rmeta = some meta) :
    (∀ (qs : String) (qn : Nat), jLookup meta "QCode" = some (.js qs) →
      pyUUIDparse qs = some qn →
      (import_qualification r f).kind =
        .applied (.qualK g, qualification_defaults r meta qn f)) ∧
    (jLookup meta "QCode" = none →
      (import_qualification r f).kind = .haltedK "TypeError: uuid.UUID(None)") ∧
    (jLookup meta "ImgCode" = none →
      (import_imagepic r).kind = .haltedK "KeyError: ImgCode") := by
  have hv : validate_guid (.js gs) = true :=
    (validate_guid_iff (.js gs)).mpr ⟨gs, rfl, hlen⟩
  refine ⟨?_, ?_, ?_⟩
  · intro qs qn hq hqp
    unfold import_qualification
    rw [hg]
    dsimp only
    rw [if_pos hv, hm]
    dsimp only
    rw [hp]
    dsimp only
    rw [hq]
    dsimp only
    rw [hqp]
  · intro hq
    unfold import_qualification
    rw [hg]
    dsimp only
    rw [if_pos hv, hm]
    dsimp only
    rw [hp]
    dsimp only
    rw [hq]
    rfl
  · intro hic
    unfold import_imagepic
    rw [hg]
    dsimp only
    rw [if_pos hv, hm]
    dsimp only
    rw [hp]
    dsimp only
    rw [hic]
    rfl

/-- A qualification record with a valid guid whose meta holds only
`QCode`. -/
def recC9w : Record :=
  ⟨[("table", .js "qualification"),
    ("guid", .js "00000000-0000-0000-0000-0000000000cc"),
    ("user_id", .ji 1), ("platform", .ji 1), ("_modified", .ji 100)],
   some [("QCode", .js "00000000-0000-0000-0000-0000000000dd")]⟩

theorem meta_defaults_C9_witness :
    (import_qualification recC9w 5).kind =
      .applied (.qualK 204, qualification_defaults recC9w
        [("QCode", .js "00000000-0000-0000-0000-0000000000dd")] 221 5) ∧
    (import_imagepic recC9w).kind = .haltedK "KeyError: ImgCode" := by
  have h := meta_defaults_C9 recC9w "00000000-0000-0000-0000-0000000000cc"
    [("QCode", .js "00000000-0000-0000-0000-0000000000dd")] 204 5
    (by decide) (by decide) (by decide) (by decide)
  exact ⟨h.1 "00000000-0000-0000-0000-0000000000dd" 221 (by decide) (by decide),
    h.2.2 (by decide)⟩

/-- An aircraft record keyed by the identifier 1. -/
def recC4 : Record :=
  ⟨[("table", .js "aircraft"),
    ("guid", .js "00000000-0000-0000-0000-000000000001"),
    ("user_id", .ji 1), ("platform", .ji 1), ("_modified", .ji 100)],
   some [("Make", .js "Cessna")]⟩

/-- A pre-existing Flight row with the same identifier (foreign-key slot
at the model default 1). -/
def frowC4 : ERow := ⟨[("from_airport", .ps "AAA")], 1⟩

/-- C4 (code bug): importing an Aircraft whose guid matches an existing
Flight logs the `Assigned Aircraft to Flight` line, yet the Flight row is
byte-for-byte unchanged — `flight_instance.aircraft = aircraft` writes an
undeclared attribute (the declared foreign key is `aircraft_id`), so
`save()` persists nothing new.  When no Flight matches, the
Aircraft import still succeeds with only the `No Flight found`
diagnostic. -/
theorem aircraft_flight_link_noop_C4 :
    (import_aircraft recC4).kind =
      .applied (.aircraftK 1, aircraft_defaults [("Make", .js "Cessna")]
        (.ji 1) (.ji 1) (.ji 100)) ∧
    ((import_aircraft recC4).logs [(EKey.flightK 1, frowC4)]).get? 1 =
      some "Assigned Aircraft to Flight: 00000000-0000-0000-0000-000000000001" ∧
    lookupS (runStore [recC4] (fun _ => 0) 0 [(EKey.flightK 1, frowC4)])
      (.flightK 1) = some frowC4 ∧
    runStore [recC4] (fun _ => 0) 0 [] =
      [(.aircraftK 1, ⟨aircraft_defaults [("Make", .js "Cessna")]
        (.ji 1) (.ji 1) (.ji 100), 1⟩)] ∧
    ((import_aircraft recC4).logs []).get? 1 =
      some "No Flight found with guid: " := by
  decide

/-- C2 (code bug): the flight CSV declares 63 columns ending in
`PilotComments`, but every data row the source writes has only 39 cells,
the last being the `ipc` flag (`pilot_comments` sits at index 35), so the
mapped fields are not at their documented column positions; the aircraft
CSV, written through a `DictWriter`, does align with its 14 headers and
emits its five unmapped columns empty. -/
theorem flight_export_row_shape_C2 :
    flightHeaders.length = 63 ∧
    flightHeaders.getLast? = some "PilotComments" ∧
    (∀ row : ERow, (flightCsvRow row).length = 39) ∧
    (∀ row : ERow, (flightCsvRow row).getLast? =
      some (pyStr (modelAttr row "ipc"))) ∧
    (∀ row : ERow, (flightCsvRow row).get? 35 =
      some (pyStr (modelAttr row "pilot_comments"))) ∧
    aircraftHeaders.length = 14 ∧
    (∀ (g : Nat) (row : ERow), (aircraftCsvRow g row).length = 14) ∧
    (∀ (g : Nat) (row : ERow),
      (aircraftCsvRow g row).get? 1 = some "" ∧
      (aircraftCsvRow g row).get? 2 = some "" ∧
      (aircraftCsvRow g row).get? 8 = some "" ∧
      (aircraftCsvRow g row).get? 9 = some "" ∧
      (aircraftCsvRow g row).get? 12 = some "") := by
  refine ⟨rfl, rfl, fun row => rfl, fun row => rfl, fun row => rfl, rfl,
    fun g row => rfl, fun g row => ⟨rfl, rfl, rfl, rfl, rfl⟩⟩

/-- A qualification record whose meta omits `RefAirfield`. -/
def recC1x : Record :=
  ⟨[("table", .js "qualification"),
    ("guid", .js "00000000-0000-0000-0000-000000000002"),
    ("user_id", .ji 1), ("platform", .ji 1), ("_modified", .ji 100)],
   some [("QCode", .js "00000000-0000-0000-0000-000000000003")]⟩

/-- C1 counterexample: re-importing a qualification record whose meta
omits `RefAirfield` does not reproduce the stored values: each import
evaluates a fresh `uuid.uuid4()` for `ref_airfield` (here the first run
draws the fresh value 0 and the second run the fresh value 1), so the
store after importing twice differs from the store after importing
once. -/
theorem qualification_reimport_differs_C1x :
    runStore [recC1x] (fun _ => 1) 0 (runStore [recC1x] (fun _ => 0) 0 []) ≠
      runStore [recC1x] (fun _ => 0) 0 [] := by
  decide

/-- C1 amended: for every input document in which every qualification
record carries `RefAirfield` in its meta, importing the document twice
yields exactly the same store — hence the same entity count and stored
field values in every table — as importing it once; a qualification
record whose meta omits `RefAirfield` instead has its `ref_airfield`
overwritten by a freshly drawn identifier on every import. -/
theorem import_idempotent_C1 (doc : List Record) (u u' : Nat → Nat)
    (h : docFreshSafe doc = true) :
    runStore doc u' 0 (runStore doc u 0 []) = runStore doc u 0 [] := by
  rw [runStore_eq_applyEs doc u 0 [], runStore_eq_applyEs doc u' 0,
    effList_fresh_indep doc u' u 0 0 h]
  exact applyEs_idem _ _ (by simp [keysS])

/-- The single-record document of the spec scenario (section 8). -/
def docC1w : List Record :=
  [⟨[("table", .js "aircraft"),
     ("guid", .js "11111111-1111-1111-1111-111111111111"),
     ("user_id", .ji 1), ("platform", .ji 1), ("_modified", .ji 100)],
    some [("Make", .js "Cessna"), ("Model", .js "172"),
      ("Complex", .jb false)]⟩]

theorem import_idempotent_C1_witness :
    docFreshSafe docC1w = true ∧
    runStore docC1w (fun _ => 1) 0 (runStore docC1w (fun _ => 0) 0 []) =
      runStore docC1w (fun _ => 0) 0 [] :=
  ⟨by decide, import_idempotent_C1 docC1w (fun _ => 0) (fun _ => 1) (by decide)⟩

end PilotLog
